import Mathlib

/-
  Verification of the OneSectorGE structural gravity model
  (src/models/OneSectorGE.py) against its specification.

  Shallow embedding conventions:
  * Real-valued quantities are modelled as rationals.
  * The transcendental exponential used by the source (math.exp / numpy.exp)
    is threaded through as an abstract function parameter named mexp.
  * Python dictionaries keyed by country identifier become association
    lists, and the unset sentinel None becomes Option.none.  The string
    sentinel used for absent fixed-effect estimates is likewise Option.
  * The external root finder (scipy.optimize.root) is an external
    capability per the specification: functions that consume its output
    take a SolverResult record holding the solution vector, the success
    flag and the message.
  * Python exceptions are modelled with Except / an explicit error value;
    functions that warn return the emitted warning messages explicitly.
  * Sorting of country keys (Python list.sort on strings, which compares
    code points) is embedded as an insertion sort over a structural
    code-point comparison, so that it evaluates inside the kernel.
-/

/- ------------------------------------------------------------------ -/
/- Data model and operations (definitions)                             -/
/- ------------------------------------------------------------------ -/

/-- Result record of the external root finder (scipy.optimize.root):
solution vector, success flag and human-readable message. -/
structure SolverResult where
  x : List ℚ
  success : Bool
  message : String
  deriving DecidableEq

/-- The message scipy.optimize.root reports on convergence, against which
the source compares (OneSectorGE lines 394 and 576). -/
def convergedMessage : String := "The solution converged."

/-- Python exception kinds observable in the modelled code paths. -/
inductive PyError where
  | valueError : String → PyError
  | attributeError : String → PyError
  | typeError : String → PyError
  | keyError : String → PyError
  deriving DecidableEq

/-- Code-point equality of characters (Python string comparison is by
code point). -/
def charEqB (a b : Char) : Bool := a.toNat = b.toNat

/-- Code-point order on characters. -/
def charLeB (a b : Char) : Bool := a.toNat ≤ b.toNat

/-- Lexicographic code-point order on character lists. -/
def strLeList : List Char → List Char → Bool
  | [], _ => true
  | _ :: _, [] => false
  | a :: as, b :: bs => if charEqB a b then strLeList as bs else charLeB a b

/-- Lexicographic code-point order on strings, matching Python string
comparison. -/
def strLeB (a b : String) : Bool := strLeList a.data b.data

/-- Single insertion step of the insertion sort used to model Python
list.sort() over country identifiers. -/
def insertKey (a : String) : List String → List String
  | [] => [a]
  | b :: l => if strLeB a b then a :: b :: l else b :: insertKey a l

/-- Insertion sort over country identifiers, modelling country_list.sort()
in the source. -/
def sortKeys : List String → List String
  | [] => []
  | a :: l => insertKey a (sortKeys l)

/-- Per-country state, mirroring the Country class.  Fields that Python
initializes to None are Options; baseline output/expenditure and the
shares computed during model construction are plain rationals because
OneSectorGE.__init__ always populates them before any solver phase. -/
structure Country where
  identifier : String := ""
  year : String := ""
  baselineOutput : ℚ := 0
  baselineExpenditure : ℚ := 0
  baselineImporterFe : Option ℚ := none
  baselineExporterFe : Option ℚ := none
  referenceExpenditure : ℚ := 0
  baselineOutputShare : ℚ := 0
  baselineExpenditureShare : ℚ := 0
  baselineImr : Option ℚ := none
  baselineOmr : Option ℚ := none
  factoryGatePriceParam : Option ℚ := none
  baselineFactoryPrice : Option ℚ := some 1
  conditionalImr : Option ℚ := none
  conditionalOmr : Option ℚ := none
  experimentImr : Option ℚ := none
  experimentOmr : Option ℚ := none
  experimentFactoryPrice : Option ℚ := none
  experimentOutput : Option ℚ := none
  experimentExpenditure : Option ℚ := none
  experimentOutputShare : Option ℚ := none
  baselineTermsOfTrade : Option ℚ := none
  experimentTermsOfTrade : Option ℚ := none
  outputChange : Option ℚ := none
  expenditureChange : Option ℚ := none
  termsOfTradeChange : Option ℚ := none
  factoryPriceChange : Option ℚ := none
  baselineImports : Option ℚ := none
  baselineExports : Option ℚ := none
  baselineForeignImports : Option ℚ := none
  baselineForeignExports : Option ℚ := none
  experimentImports : Option ℚ := none
  experimentExports : Option ℚ := none
  experimentForeignImports : Option ℚ := none
  experimentForeignExports : Option ℚ := none
  importsChange : Option ℚ := none
  exportsChange : Option ℚ := none
  foreignImportsChange : Option ℚ := none
  foreignExportsChange : Option ℚ := none
  deriving DecidableEq

instance : Inhabited Country := ⟨{}⟩

/-- Sorted country key list of a country set, modelling
country_list = list(country_set.keys()) followed by country_list.sort(). -/
def sortedKeys (cs : List (String × Country)) : List String :=
  sortKeys (cs.map Prod.fst)

/-- Parameters handed to the MR system, mirroring the mr_params dict
built in OneSectorGE._calculate_multilateral_resistance: country count,
the two cost-weighted share matrices (exporter row, importer column) and
the two rescale factors. -/
structure MRParams where
  numberOfCountries : ℕ
  costExpShr : ℕ → ℕ → ℚ
  costOutShr : ℕ → ℕ → ℚ
  imrRescale : ℚ
  omrRescale : ℚ

/-- Embedding of the module-level function _multilateral_resistances.
The unknowns vector x holds N-1 rescaled IMR values followed by N
rescaled OMR values; the residual vector is the IMR equations for the
first N-1 importers followed by the OMR equations for all N exporters,
with the excluded importer (the last slot of the sorted order) given the
implicit IMR value 1. -/
def multilateralResistances (x : List ℚ) (p : MRParams) : List ℚ :=
  let n := p.numberOfCountries
  let ximr := (x.take (n - 1)).map (fun v => v * p.imrRescale)
  let xomr := (x.drop (n - 1)).map (fun v => v * p.omrRescale)
  let imrOut := (List.range (n - 1)).map (fun j =>
    1 - ximr.getD j 0 * ∑ i in Finset.range n, p.costOutShr i j * xomr.getD i 0)
  let ximrFull := ximr ++ [1]
  let omrOut := (List.range n).map (fun i =>
    1 - xomr.getD i 0 * ∑ j in Finset.range n, p.costExpShr i j * ximrFull.getD j 0)
  imrOut ++ omrOut

/-- Initial guess for the MR solve: a vector of 2N-1 ones
(OneSectorGE._calculate_multilateral_resistance, step 2). -/
def mrInitialValues (n : ℕ) : List ℚ := List.replicate (2 * n - 1) 1

/-- Componentwise scaling of an MR unknowns vector: the first N-1 slots
are multiplied by the IMR rescale factor and the remaining slots by the
OMR rescale factor. -/
def scaleMRVector (n : ℕ) (rimr romr : ℚ) (x : List ℚ) : List ℚ :=
  ((x.take (n - 1)).map (fun v => v * rimr)) ++ ((x.drop (n - 1)).map (fun v => v * romr))

/-- Unpacking of the solved IMR values, mirroring
OneSectorGE._calculate_multilateral_resistance step 3: the first N-1
entries of the solver output are multiplied back by imr_rescale and the
value 1 is appended for the excluded (sorted-last) country. -/
def packImrs (n : ℕ) (rimr : ℚ) (x : List ℚ) : List ℚ :=
  ((x.take (n - 1)).map (fun v => v * rimr)) ++ [1]

/-- Unpacking of the solved OMR values: the remaining entries of the
solver output multiplied back by omr_rescale. -/
def packOmrs (n : ℕ) (romr : ℚ) (x : List ℚ) : List ℚ :=
  (x.drop (n - 1)).map (fun v => v * romr)

/-- Outcome of one MR solve-and-store step: warnings emitted, the
solver_diagnostics entry (key and stored result) and the updated country
set. -/
structure MRSolveOutcome where
  warnings : List String
  diagKey : String
  diag : SolverResult
  countrySet : List (String × Country)

/-- Steps 2-3 of OneSectorGE._calculate_multilateral_resistance after the
external root call: warn unless the solver message is the convergence
message, store the solver result under version + "_MRs", unpack the
solution vector (multiplying the rescale factors back in and appending
the implicit 1) and store the values into the baseline or conditional
IMR/OMR fields of every country, indexed by the sorted key order. -/
def calculateMultilateralResistance (version : String) (cs : List (String × Country))
    (rimr romr : ℚ) (solved : SolverResult) : MRSolveOutcome :=
  let countryList := sortedKeys cs
  let n := countryList.length
  let warnings := if solved.message = convergedMessage then [] else [solved.message]
  let imrs := packImrs n rimr solved.x
  let omrs := packOmrs n romr solved.x
  let newCs := cs.map (fun kc =>
    if version = "baseline" then
      (kc.1, { kc.2 with baselineImr := (countryList.zip imrs).lookup kc.1,
                         baselineOmr := (countryList.zip omrs).lookup kc.1 })
    else if version = "conditional" then
      (kc.1, { kc.2 with conditionalImr := (countryList.zip imrs).lookup kc.1,
                         conditionalOmr := (countryList.zip omrs).lookup kc.1 })
    else kc)
  { warnings := warnings, diagKey := version ++ "_MRs", diag := solved, countrySet := newCs }

/-- Outward multilateral resistance of the GEPPML closed form,
equation (2-38): (Y_i * E_R) / exp(exporter fixed effect). -/
def geppmlOMR (mexp : ℚ → ℚ) (Yi ER expFei : ℚ) : ℚ := (Yi * ER) / mexp expFei

/-- Inward multilateral resistance of the GEPPML closed form,
equation (2-39): E_j / (exp(importer fixed effect) * E_R). -/
def geppmlIMR (mexp : ℚ → ℚ) (Ej ER impFej : ℚ) : ℚ := Ej / (mexp impFej * ER)

/-- One loop iteration of
OneSectorGE._calculate_GEPPML_multilateral_resistance (version baseline).
For the reference importer: warn when an importer fixed effect exists,
fail when the exporter fixed effect is absent, set imr = 1 and the
closed-form omr, and store the reciprocals.  For every other country:
fail when either fixed effect is absent, compute omr from the exporter
fixed effect and imr from the closed form -- the source passes the
exporter fixed effect as imp_fe_j (line 480), which this embedding
reproduces verbatim -- and store the reciprocals. -/
def geppmlCountry (mexp : ℚ → ℚ) (referenceImporter : String) (refExpnd : ℚ)
    (kc : String × Country) : List String × Except PyError (String × Country) :=
  let c := kc.2
  if kc.1 = referenceImporter then
    let warnings := if c.baselineImporterFe ≠ none then
        ["There exists an importer fixed effect estimate for the reference country. Check that the fixed effect specification correctly omits the reference country"]
      else []
    match c.baselineExporterFe with
    | none => (warnings, .error (.valueError ("No exporter fixed effect estimate for " ++ kc.1)))
    | some expFe =>
      let imr : ℚ := 1
      let omr := geppmlOMR mexp c.baselineOutput refExpnd expFe
      (warnings, .ok (kc.1, { c with baselineImr := some (1 / imr), baselineOmr := some (1 / omr) }))
  else
    match c.baselineImporterFe with
    | none => ([], .error (.valueError ("No importer fixed effect estimate for " ++ kc.1)))
    | some _ =>
      match c.baselineExporterFe with
      | none => ([], .error (.valueError ("No exporter fixed effect estimate for " ++ kc.1)))
      | some expFe =>
        let omr := geppmlOMR mexp c.baselineOutput refExpnd expFe
        let imr := geppmlIMR mexp c.baselineExpenditure refExpnd expFe
        ([], .ok (kc.1, { c with baselineImr := some (1 / imr), baselineOmr := some (1 / omr) }))

/-- The country loop of the GEPPML baseline branch: process countries in
order, accumulate warnings, abort at the first raised error. -/
def geppmlLoop (mexp : ℚ → ℚ) (referenceImporter : String) (refExpnd : ℚ) :
    List (String × Country) → List String × Except PyError (List (String × Country))
  | [] => ([], .ok [])
  | kc :: rest =>
    match geppmlCountry mexp referenceImporter refExpnd kc with
    | (w, .error e) => (w, .error e)
    | (w, .ok kc') =>
      match geppmlLoop mexp referenceImporter refExpnd rest with
      | (w2, r2) => (w ++ w2, r2.map (fun l => kc' :: l))

/-- OneSectorGE._calculate_GEPPML_multilateral_resistance, version
baseline: read the reference expenditure from the country set (a missing
key raises) and run the country loop.  The conditional version in the
source is an unfinished stub and is not modelled. -/
def calculateGeppmlBaseline (mexp : ℚ → ℚ) (referenceImporter : String)
    (cs : List (String × Country)) : List String × Except PyError (List (String × Country)) :=
  match cs.lookup referenceImporter with
  | none => ([], .error (.keyError referenceImporter))
  | some refC => geppmlLoop mexp referenceImporter refC.baselineExpenditure cs

/-- OneSectorGE._calculate_baseline_factory_gate_params: for every country
set factory_gate_price_param = baseline_output_share * baseline_omr. -/
def calculateBaselineFactoryGateParams (cs : List (String × Country)) :
    List (String × Country) :=
  cs.map (fun kc =>
    (kc.1, { kc.2 with
      factoryGatePriceParam :=
        Option.map (fun om => kc.2.baselineOutputShare * om) kc.2.baselineOmr }))

/-- Parameters of the full GE system, mirroring the ge_params dict of
OneSectorGE._calculate_full_ge.  Sigma is the elasticity of substitution;
it enters only through the exponent 1 - sigma, carried as an integer. -/
structure GEParams where
  numberOfCountries : ℕ
  sigma : ℤ
  costExpShr : ℕ → ℕ → ℚ
  costOutShr : ℕ → ℕ → ℚ
  outputShr : List ℚ
  factoryGateParam : List ℚ
  imrRescale : ℚ
  omrRescale : ℚ

/-- Embedding of the module-level function _full_ge: the two MR residual
families over the experiment share matrices plus, per exporter, the
factory-gate price residual
1 - (output_share_i * OMR_i) / (beta_i * price_i ^ (1 - sigma)). -/
def fullGe (x : List ℚ) (p : GEParams) : List ℚ :=
  let n := p.numberOfCountries
  let sigmaPower : ℤ := 1 - p.sigma
  let ximr := (x.take (n - 1)).map (fun v => v * p.imrRescale)
  let xomr := ((x.drop (n - 1)).take n).map (fun v => v * p.omrRescale)
  let xprice := x.drop (2 * n - 1)
  let imrOut := (List.range (n - 1)).map (fun j =>
    1 - ximr.getD j 0 * ∑ i in Finset.range n, p.costOutShr i j * xomr.getD i 0)
  let ximrFull := ximr ++ [1]
  let omrOut := (List.range n).map (fun i =>
    1 - xomr.getD i 0 * ∑ j in Finset.range n, p.costExpShr i j * ximrFull.getD j 0)
  let priceOut := (List.range n).map (fun i =>
    1 - (p.outputShr.getD i 0 * xomr.getD i 0) /
      (p.factoryGateParam.getD i 0 * (xprice.getD i 0) ^ sigmaPower))
  imrOut ++ omrOut ++ priceOut

/-- Initial unknowns vector of the full GE solve
(OneSectorGE._calculate_full_ge): conditional IMR and OMR values divided
by the rescale factors, the IMR list truncated to its first N-1 entries,
followed by N unit prices. -/
def fullGeInitialValues (n : ℕ) (rimr romr : ℚ) (condImr condOmr : List ℚ) : List ℚ :=
  let initImr := condImr.map (fun v => v / rimr)
  let initOmr := condOmr.map (fun v => v / romr)
  (initImr.take (n - 1)) ++ initOmr ++ List.replicate n 1

/-- Outcome of the full-GE solve-and-store step. -/
structure FullGeOutcome where
  warnings : List String
  diagKey : String
  diag : SolverResult
  factoryGatePrices : List (String × ℚ)
  countrySet : List (String × Country)

/-- The store step of OneSectorGE._calculate_full_ge after the external
root call: warn unless converged, store diagnostics under key "full_GE",
split the solution vector into IMR (rescaled back, implicit trailing 1),
OMR (rescaled back) and factory-gate prices, record the price table, and
write experiment fields of every country positionally along the sorted
key order, with factory_price_change = 100 * (price - 1). -/
def calculateFullGe (cs : List (String × Country)) (rimr romr : ℚ)
    (solved : SolverResult) : FullGeOutcome :=
  let countryList := sortedKeys cs
  let n := countryList.length
  let warnings := if solved.message = convergedMessage then [] else [solved.message]
  let imrs := packImrs n rimr solved.x
  let omrs := ((solved.x.drop (n - 1)).take n).map (fun v => v * romr)
  let prices := solved.x.drop (2 * n - 1)
  let newCs := cs.map (fun kc =>
    let i := countryList.indexOf kc.1
    (kc.1, { kc.2 with experimentImr := imrs.get? i,
                       experimentOmr := omrs.get? i,
                       experimentFactoryPrice := prices.get? i,
                       factoryPriceChange := (prices.get? i).map (fun v => 100 * (v - 1)) }))
  { warnings := warnings, diagKey := "full_GE", diag := solved,
    factoryGatePrices := countryList.zip prices, countrySet := newCs }

/-- Row of a trade-cost table produced by _create_trade_costs, keyed by
(importer, exporter, year). -/
structure CostRow where
  importer : String
  exporter : String
  year : String
  tradeCost : ℚ
  deriving DecidableEq

/-- Raw bilateral observation row carrying the cost variables, as consumed
by _create_trade_costs. -/
structure TradeRow where
  importer : String
  exporter : String
  year : String
  costVars : List ℚ
  deriving DecidableEq

/-- OneSectorGE._create_trade_costs: one trade-cost multiplier per row,
exp of the coefficient-weighted sum of the cost variables, plus the
non-square data-quality warning (the NaN warning concerns IEEE floats and
has no rational counterpart). -/
def createTradeCosts (mexp : ℚ → ℚ) (coeffs : List ℚ) (numCountries : ℕ)
    (data : List TradeRow) : List String × List CostRow :=
  let rows := data.map (fun r =>
    CostRow.mk r.importer r.exporter r.year
      (mexp ((List.zipWith (fun a b => a * b) coeffs r.costVars).sum)))
  let warnings :=
    if rows.length ≠ numCountries ^ 2 then
      ["Calculated trade costs are not square. Some bilateral costs are absent."]
    else []
  (warnings, rows)

/-- Lookup of a trade cost by the full (importer, exporter, year) key. -/
def costRowLookup (costs : List CostRow) (imp ex yr : String) : Option ℚ :=
  (costs.find? (fun r => r.importer == imp && r.exporter == ex && r.year == yr)).map
    (fun r => r.tradeCost)

/-- Lookup of a trade cost by (importer, exporter) only, as used by the
merges of _construct_experiment_trade. -/
def costLookup (costs : List CostRow) (imp ex : String) : Option ℚ :=
  (costs.find? (fun r => r.importer == imp && r.exporter == ex)).map
    (fun r => r.tradeCost)

/-- Row of the cost-shock difference table computed by define_experiment. -/
structure CostChangeRow where
  importer : String
  exporter : String
  year : String
  baselineTradeCost : Option ℚ
  experimentTradeCost : Option ℚ
  deriving DecidableEq

/-- The cost_shock computation of define_experiment: outer-merge the
baseline and experiment cost tables on (importer, exporter, year) and keep
the rows whose two costs differ. -/
def costShockOf (bCosts eCosts : List CostRow) : List CostChangeRow :=
  let keyOf := fun (r : CostRow) => (r.importer, r.exporter, r.year)
  let bKeys := bCosts.map keyOf
  let keys := bKeys ++ ((eCosts.map keyOf).filter (fun k => !(bKeys.contains k)))
  (keys.map (fun k => CostChangeRow.mk k.1 k.2.1 k.2.2
      (costRowLookup bCosts k.1 k.2.1 k.2.2)
      (costRowLookup eCosts k.1 k.2.1 k.2.2))).filter
    (fun row => row.baselineTradeCost != row.experimentTradeCost)

/-- Aggregate economy state (the Economy class). -/
structure Economy where
  sigma : ℚ := 4
  experimentTotalOutput : Option ℚ := none
  experimentTotalExpenditure : Option ℚ := none
  baselineTotalOutput : Option ℚ := none
  baselineTotalExpenditure : Option ℚ := none
  outputChange : Option ℚ := none
  deriving DecidableEq

/-- Economy.initialize_baseline_total_output_expend: totals of country
baseline output and expenditure. -/
def initializeBaselineTotalOutputExpend (e : Economy)
    (cs : List (String × Country)) : Economy :=
  { e with
    baselineTotalOutput := some ((cs.map (fun kc => kc.2.baselineOutput)).sum),
    baselineTotalExpenditure := some ((cs.map (fun kc => kc.2.baselineExpenditure)).sum) }

/-- Country.construct_terms_of_trade: warn once for every unset required
input (baseline factory price, baseline IMR, experiment factory price,
experiment IMR), then compute baseline and experiment terms of trade as
factory_price / IMR and the percent change.  When an operand is None the
unguarded Python division raises TypeError; the source computes the
baseline quotient on line 1031 before the experiment quotient on line
1032, which the nested matches reproduce. -/
def constructTermsOfTrade (c : Country) : List String × Except PyError Country :=
  let vals := [c.baselineFactoryPrice, c.baselineImr, c.experimentFactoryPrice, c.experimentImr]
  let warnings := (vals.filter (fun v => v = none)).map
    (fun _ => "Not all necessary values for terms of trade have been calculated.")
  match c.baselineFactoryPrice, c.baselineImr with
  | some bfp, some bimr =>
    let btot := bfp / bimr
    match c.experimentFactoryPrice, c.experimentImr with
    | some efp, some eimr =>
      let etot := efp / eimr
      (warnings, Except.ok { c with
        baselineTermsOfTrade := some btot,
        experimentTermsOfTrade := some etot,
        termsOfTradeChange := some (100 * (etot - btot) / btot) })
    | _, _ => (warnings, Except.error (PyError.typeError "unsupported operand type for /: NoneType"))
  | _, _ => (warnings, Except.error (PyError.typeError "unsupported operand type for /: NoneType"))

/-- The terms-of-trade loop of simulate step 3, applied over the country
set in order, accumulating warnings and aborting at the first raise. -/
def sequenceTermsOfTrade :
    List (String × Country) → List String × Except PyError (List (String × Country))
  | [] => ([], Except.ok [])
  | kc :: rest =>
    match constructTermsOfTrade kc.2 with
    | (w, Except.error e) => (w, Except.error e)
    | (w, Except.ok c') =>
      match sequenceTermsOfTrade rest with
      | (w2, r2) => (w ++ w2, r2.map (fun l => (kc.1, c') :: l))

/-- Row of the outputs_expenditures results table. -/
structure OutputExpendRow where
  country : String
  baselineOutput : ℚ
  experimentOutput : ℚ
  outputPercentChange : ℚ
  baselineExpenditure : ℚ
  experimentExpenditure : ℚ
  expenditurePercentChange : ℚ
  deriving DecidableEq

/-- OneSectorGE._construct_experiment_output_expend: the first pass sets
experiment output and expenditure as factory price times the baseline
level and accumulates total output; the second pass sets the experiment
output share and the percent changes, builds the results table, and
records the economy-wide total and change. -/
def constructExperimentOutputExpend (cs : List (String × Country)) (econ : Economy) :
    Except PyError (List (String × Country) × Economy × List OutputExpendRow) :=
  match cs.mapM (fun kc =>
      match kc.2.experimentFactoryPrice with
      | none => Except.error (PyError.typeError "unsupported operand type for *: NoneType")
      | some p => Except.ok (kc.1, { kc.2 with
          experimentOutput := some (p * kc.2.baselineOutput),
          experimentExpenditure := some (p * kc.2.baselineExpenditure) })) with
  | Except.error e => Except.error e
  | Except.ok cs1 =>
    let totalOutput := (cs1.map (fun kc => (kc.2.experimentOutput).getD 0)).sum
    let cs2 := cs1.map (fun kc =>
      let eo := (kc.2.experimentOutput).getD 0
      let ee := (kc.2.experimentExpenditure).getD 0
      (kc.1, { kc.2 with
        experimentOutputShare := some (eo / totalOutput),
        outputChange := some (100 * (eo - kc.2.baselineOutput) / kc.2.baselineOutput),
        expenditureChange :=
          some (100 * (ee - kc.2.baselineExpenditure) / kc.2.baselineExpenditure) }))
    let table := cs2.map (fun kc =>
      OutputExpendRow.mk kc.1 kc.2.baselineOutput ((kc.2.experimentOutput).getD 0)
        ((kc.2.outputChange).getD 0) kc.2.baselineExpenditure
        ((kc.2.experimentExpenditure).getD 0) ((kc.2.expenditureChange).getD 0))
    match econ.baselineTotalOutput with
    | none => Except.error (PyError.typeError "unsupported operand type for -: NoneType")
    | some bto =>
      Except.ok (cs2, { econ with
        experimentTotalOutput := some totalOutput,
        outputChange := some (100 * (totalOutput - bto) / bto) }, table)

/-- Row of the bilateral baseline trade data consumed by
_construct_experiment_trade: exporter, importer and observed flow. -/
structure FlowRow where
  exporter : String
  importer : String
  baselineTrade : ℚ
  deriving DecidableEq

/-- Row of the bilateral trade results table. -/
structure BilatRow where
  exporter : String
  importer : String
  baselineModeledTrade : ℚ
  experimentTrade : ℚ
  percentChange : ℚ
  deriving DecidableEq

/-- Row of an aggregated (imports or exports) trade table. -/
structure AggRow where
  country : String
  baseline : ℚ
  experiment : ℚ
  percentChange : ℚ
  deriving DecidableEq

/-- Per-row computation of _construct_experiment_trade: experiment gravity
from experiment expenditure, output share, IMR and OMR; baseline gravity
from the baseline counterparts; modeled trade as the respective trade cost
times gravity; percent change of the two.  A missing country, unset field
or absent cost pair makes the whole lookup fail, as the corresponding
Python access would raise. -/
def bilatRow (cs : List (String × Country)) (bCosts eCosts : List CostRow)
    (r : FlowRow) : Option BilatRow := do
  let imp ← cs.lookup r.importer
  let ex ← cs.lookup r.exporter
  let imr ← imp.experimentImr
  let omr ← ex.experimentOmr
  let expend ← imp.experimentExpenditure
  let outShr ← ex.experimentOutputShare
  let bimr ← imp.baselineImr
  let bomr ← ex.baselineOmr
  let bcost ← costLookup bCosts r.importer r.exporter
  let ecost ← costLookup eCosts r.importer r.exporter
  let gravity := (expend * outShr) / (imr * omr)
  let bslnGravity := (imp.baselineExpenditure * ex.baselineOutputShare) / (bimr * bomr)
  let bmt := bcost * bslnGravity
  let et := ecost * gravity
  pure { exporter := r.exporter, importer := r.importer,
         baselineModeledTrade := bmt, experimentTrade := et,
         percentChange := 100 * (et - bmt) / bmt }

/-- Group-by-and-sum of the bilateral results table along a key column,
modelling the pandas groupby (whose keys come out sorted), with the
percent-change column of the aggregate. -/
def aggregateBy (key : BilatRow → String) (bilat : List BilatRow) : List AggRow :=
  (sortKeys (bilat.map key).dedup).map (fun k =>
    let b := ((bilat.filter (fun r => key r == k)).map (fun r => r.baselineModeledTrade)).sum
    let e := ((bilat.filter (fun r => key r == k)).map (fun r => r.experimentTrade)).sum
    { country := k, baseline := b, experiment := e, percentChange := 100 * (e - b) / b })

/-- Lookup of a country row in an aggregate table. -/
def lookupAgg (t : List AggRow) (c : String) : Option AggRow :=
  t.find? (fun a => a.country == c)

/-- OneSectorGE._construct_experiment_trade: the bilateral results over
the baseline trade rows, total and foreign-only exports and imports, the
foreign variants computed by first removing the rows with
importer == exporter and then grouping. -/
def constructExperimentTrade (cs : List (String × Country)) (flows : List FlowRow)
    (bCosts eCosts : List CostRow) :
    Option (List BilatRow × List AggRow × List AggRow × List AggRow × List AggRow) :=
  (flows.mapM (bilatRow cs bCosts eCosts)).map (fun bilat =>
    (bilat,
     aggregateBy (fun r => r.exporter) bilat,
     aggregateBy (fun r => r.exporter) (bilat.filter (fun r => r.importer != r.exporter)),
     aggregateBy (fun r => r.importer) bilat,
     aggregateBy (fun r => r.importer) (bilat.filter (fun r => r.importer != r.exporter))))

/-- The store-back loop at the end of _construct_experiment_trade: write
the aggregate levels and percent changes into the country objects. -/
def storeAggregateTrade (cs : List (String × Country))
    (aggE fE aggI fI : List AggRow) : List (String × Country) :=
  cs.map (fun kc =>
    (kc.1, { kc.2 with
      baselineExports := (lookupAgg aggE kc.1).map (fun a => a.baseline),
      experimentExports := (lookupAgg aggE kc.1).map (fun a => a.experiment),
      exportsChange := (lookupAgg aggE kc.1).map (fun a => a.percentChange),
      baselineForeignExports := (lookupAgg fE kc.1).map (fun a => a.baseline),
      experimentForeignExports := (lookupAgg fE kc.1).map (fun a => a.experiment),
      foreignExportsChange := (lookupAgg fE kc.1).map (fun a => a.percentChange),
      baselineImports := (lookupAgg aggI kc.1).map (fun a => a.baseline),
      experimentImports := (lookupAgg aggI kc.1).map (fun a => a.experiment),
      importsChange := (lookupAgg aggI kc.1).map (fun a => a.percentChange),
      baselineForeignImports := (lookupAgg fI kc.1).map (fun a => a.baseline),
      experimentForeignImports := (lookupAgg fI kc.1).map (fun a => a.experiment),
      foreignImportsChange := (lookupAgg fI kc.1).map (fun a => a.percentChange) }))

/-- Row of the compiled per-country results table (Country.get_results). -/
structure CountryResultsRow where
  country : String
  factoryPriceChange : Option ℚ
  outputChange : Option ℚ
  expenditureChange : Option ℚ
  exportChange : Option ℚ
  importChange : Option ℚ
  foreignExportChange : Option ℚ
  foreignImportChange : Option ℚ
  termsOfTradeChange : Option ℚ
  deriving DecidableEq

/-- Row of the compiled MR-terms table (Country.get_mr_results). -/
structure MrTermsRow where
  country : String
  baselineImr : Option ℚ
  conditionalImr : Option ℚ
  experimentImr : Option ℚ
  baselineOmr : Option ℚ
  conditionalOmr : Option ℚ
  experimentOmr : Option ℚ
  deriving DecidableEq

/-- Country.get_results. -/
def getResults (c : Country) : CountryResultsRow :=
  ⟨c.identifier, c.factoryPriceChange, c.outputChange, c.expenditureChange,
   c.exportsChange, c.importsChange, c.foreignExportsChange, c.foreignImportsChange,
   c.termsOfTradeChange⟩

/-- Country.get_mr_results. -/
def getMrResults (c : Country) : MrTermsRow :=
  ⟨c.identifier, c.baselineImr, c.conditionalImr, c.experimentImr,
   c.baselineOmr, c.conditionalOmr, c.experimentOmr⟩

/-- OneSectorGE._compile_results. -/
def compileResults (cs : List (String × Country)) :
    List CountryResultsRow × List MrTermsRow :=
  (cs.map (fun kc => getResults kc.2), cs.map (fun kc => getMrResults kc.2))

/-- Orchestrator state (the OneSectorGE object), restricted to the fields
the modelled lifecycle reads and writes.  The result fields start as the
unset sentinel, exactly as OneSectorGE.__init__ lines 97-108 set them. -/
structure GEModelState where
  countrySet : List (String × Country) := []
  economy : Economy := {}
  referenceImporter : String := ""
  approach : Option String := none
  omrRescale : ℚ := 1
  imrRescale : ℚ := 1
  baselineData : List FlowRow := []
  costCoeffs : List ℚ := []
  baselineTradeCosts : List CostRow := []
  experimentTradeCosts : Option (List CostRow) := none
  experimentData : Option (List TradeRow) := none
  costShock : Option (List CostChangeRow) := none
  solverDiagnostics : List (String × SolverResult) := []
  bilateralTradeResults : Option (List BilatRow) := none
  aggregateTradeResults : Option (List AggRow × List AggRow × List AggRow × List AggRow) := none
  factoryGatePrices : Option (List (String × ℚ)) := none
  outputsExpenditures : Option (List OutputExpendRow) := none
  countryResults : Option (List CountryResultsRow) := none
  countryMrTerms : Option (List MrTermsRow) := none
  baselineBuilt : Bool := false
  experimentDefined : Bool := false

/-- The state OneSectorGE.__init__ leaves behind: prepared inputs, every
results field None, solver_diagnostics empty, both status flags False.
The pandas-side data preparation is out of scope per the specification;
its products are taken as arguments. -/
def initialState (cs : List (String × Country)) (econ : Economy) (refImp : String)
    (approach : Option String) (baselineData : List FlowRow) (costCoeffs : List ℚ)
    (baselineTradeCosts : List CostRow) : GEModelState :=
  { countrySet := cs, economy := econ, referenceImporter := refImp, approach := approach,
    baselineData := baselineData, costCoeffs := costCoeffs,
    baselineTradeCosts := baselineTradeCosts,
    experimentTradeCosts := none, experimentData := none, costShock := none,
    solverDiagnostics := [], bilateralTradeResults := none,
    aggregateTradeResults := none, factoryGatePrices := none,
    outputsExpenditures := none, countryResults := none, countryMrTerms := none,
    baselineBuilt := false, experimentDefined := false }

/-- OneSectorGE.build_baseline: record the rescale factors, solve the
baseline MRs (closed-form GEPPML when approach is GEPPML, iterative
otherwise -- the external root step is an input), compute the factory-gate
parameters and mark the baseline built.  The result triple carries the
state after the call, the warnings emitted, and the exception if one was
raised. -/
def buildBaseline (mexp : ℚ → ℚ) (s : GEModelState) (omrRescale imrRescale : ℚ)
    (solved : SolverResult) : GEModelState × List String × Option PyError :=
  let s1 := { s with omrRescale := omrRescale, imrRescale := imrRescale }
  if s1.approach = some "GEPPML" then
    match calculateGeppmlBaseline mexp s1.referenceImporter s1.countrySet with
    | (w, Except.error e) => (s1, w, some e)
    | (w, Except.ok cs') =>
      ({ s1 with countrySet := calculateBaselineFactoryGateParams cs',
                 baselineBuilt := true }, w, none)
  else
    let r := calculateMultilateralResistance "baseline" s1.countrySet imrRescale
      omrRescale solved
    ({ s1 with countrySet := calculateBaselineFactoryGateParams r.countrySet,
               solverDiagnostics := (r.diagKey, r.diag) :: s1.solverDiagnostics,
               baselineBuilt := true }, r.warnings, none)

/-- OneSectorGE.define_experiment: raise the sequencing error before any
assignment when the baseline has not been built; otherwise store the
experiment data, compute the experiment trade costs and the cost-shock
difference table and mark the experiment defined. -/
def defineExperiment (mexp : ℚ → ℚ) (s : GEModelState) (experimentData : List TradeRow) :
    GEModelState × List String × Option PyError :=
  if s.baselineBuilt = false then
    (s, [], some (PyError.valueError
      "Baseline must be built first (i.e. ge_model.build_baseline() method"))
  else
    let wc := createTradeCosts mexp s.costCoeffs s.countrySet.length experimentData
    ({ s with experimentData := some experimentData,
              experimentTradeCosts := some wc.2,
              costShock := some (costShockOf s.baselineTradeCosts wc.2),
              experimentDefined := true }, wc.1, none)

/-- OneSectorGE.simulate: the two sequencing guards in source order, then
the conditional MR solve, the full GE solve, and the result construction
steps (terms of trade, outputs and expenditures, trade, compiled tables).
The external root-finder calls are inputs. -/
def simulate (s : GEModelState) (condSolved fullSolved : SolverResult) :
    GEModelState × List String × Option PyError :=
  if s.baselineBuilt = false then
    (s, [], some (PyError.valueError
      "Baseline must be built first (i.e. OneSectorGE.build_baseline() method"))
  else if s.experimentDefined = false then
    (s, [], some (PyError.valueError
      "Expiriment must be defined first (i.e. OneSectorGE.define_expiriment() method"))
  else
    let r1 := calculateMultilateralResistance "conditional" s.countrySet s.imrRescale
      s.omrRescale condSolved
    let s1 := { s with countrySet := r1.countrySet,
                       solverDiagnostics := (r1.diagKey, r1.diag) :: s.solverDiagnostics }
    let r2 := calculateFullGe s1.countrySet s.imrRescale s.omrRescale fullSolved
    let s2 := { s1 with countrySet := r2.countrySet,
                        factoryGatePrices := some r2.factoryGatePrices,
                        solverDiagnostics := (r2.diagKey, r2.diag) :: s1.solverDiagnostics }
    match sequenceTermsOfTrade s2.countrySet with
    | (w3, Except.error e) => (s2, r1.warnings ++ r2.warnings ++ w3, some e)
    | (w3, Except.ok cs3) =>
      let s3 := { s2 with countrySet := cs3 }
      match constructExperimentOutputExpend s3.countrySet s3.economy with
      | Except.error e => (s3, r1.warnings ++ r2.warnings ++ w3, some e)
      | Except.ok (cs4, econ4, oeTable) =>
        let s4 := { s3 with countrySet := cs4, economy := econ4,
                            outputsExpenditures := some oeTable }
        match constructExperimentTrade s4.countrySet s4.baselineData s4.baselineTradeCosts
            ((s4.experimentTradeCosts).getD []) with
        | none => (s4, r1.warnings ++ r2.warnings ++ w3,
            some (PyError.typeError "unsupported operand type: NoneType"))
        | some (bilat, aggE, fE, aggI, fI) =>
          let cs5 := storeAggregateTrade s4.countrySet aggE fE aggI fI
          let compiled := compileResults cs5
          ({ s4 with countrySet := cs5,
                     bilateralTradeResults := some bilat,
                     aggregateTradeResults := some (aggE, fE, aggI, fI),
                     countryResults := some compiled.1,
                     countryMrTerms := some compiled.2 },
           r1.warnings ++ r2.warnings ++ w3, none)

/-- Row of the trade_share result. -/
structure TradeShareRow where
  description : String
  baselineModeledTrade : ℚ
  experimentTrade : ℚ
  changePercentagePoint : ℚ
  changePercent : ℚ
  deriving DecidableEq

/-- OneSectorGE.trade_share: the first operation reads
self.bilateral_trade_results with .loc, which raises AttributeError when
the field is still None; otherwise compute the share of selected imports
and exports, with percentage-point and percent changes. -/
def tradeShare (s : GEModelState) (importers exporters : List String) :
    Except PyError (List TradeShareRow) :=
  match s.bilateralTradeResults with
  | none => Except.error (PyError.attributeError "NoneType object has no attribute loc")
  | some bilat =>
    let imports := bilat.filter (fun r => importers.contains r.importer)
    let exports := bilat.filter (fun r => exporters.contains r.exporter)
    let totImpB := (imports.map (fun r => r.baselineModeledTrade)).sum
    let totImpE := (imports.map (fun r => r.experimentTrade)).sum
    let totExpB := (exports.map (fun r => r.baselineModeledTrade)).sum
    let totExpE := (exports.map (fun r => r.experimentTrade)).sum
    let selImp := imports.filter (fun r => exporters.contains r.exporter)
    let selExp := exports.filter (fun r => importers.contains r.importer)
    let impB := 100 * (selImp.map (fun r => r.baselineModeledTrade)).sum / totImpB
    let impE := 100 * (selImp.map (fun r => r.experimentTrade)).sum / totImpE
    let expB := 100 * (selExp.map (fun r => r.baselineModeledTrade)).sum / totExpB
    let expE := 100 * (selExp.map (fun r => r.experimentTrade)).sum / totExpE
    Except.ok
      [{ description := "Percent of " ++ String.intercalate ", " importers ++
           " imports from " ++ String.intercalate ", " exporters,
         baselineModeledTrade := impB, experimentTrade := impE,
         changePercentagePoint := impE - impB,
         changePercent := 100 * (impE - impB) / impB },
       { description := "Percent of " ++ String.intercalate ", " exporters ++
           " exports to " ++ String.intercalate ", " importers,
         baselineModeledTrade := expB, experimentTrade := expE,
         changePercentagePoint := expE - expB,
         changePercent := 100 * (expE - expB) / expB }]

/-- OneSectorGE.export_results (directory None branch): concatenating the
five country-level tables raises TypeError while any of them is still
None; on success the country tables, the bilateral table and the stored
solver diagnostics are returned. -/
def exportResults (s : GEModelState) :
    Except PyError ((List CountryResultsRow × List (String × ℚ) ×
      (List AggRow × List AggRow × List AggRow × List AggRow) ×
      List OutputExpendRow × List MrTermsRow) ×
      Option (List BilatRow) × List (String × SolverResult)) :=
  match s.countryResults, s.factoryGatePrices, s.aggregateTradeResults,
      s.outputsExpenditures, s.countryMrTerms with
  | some cr, some fgp, some agg, some oe, some mr =>
    Except.ok ((cr, fgp, agg, oe, mr), s.bilateralTradeResults, s.solverDiagnostics)
  | _, _, _, _, _ =>
    Except.error (PyError.typeError "cannot concatenate object of type NoneType")

/- THEOREMS BELOW: definitions are inserted above this marker. -/

/- ------------------------------------------------------------------ -/
/- List indexing helpers (no counterpart in the source; proof plumbing) -/
/- ------------------------------------------------------------------ -/

theorem getD_map_lt {α β : Type} (f : α → β) (dA : α) (dB : β) :
    ∀ (l : List α) (i : ℕ), i < l.length → (l.map f).getD i dB = f (l.getD i dA)
  | _ :: _, 0, _ => rfl
  | _ :: l, i + 1, h => getD_map_lt f dA dB l i (by simpa using h)

theorem getD_take_lt {α : Type} (d : α) :
    ∀ (l : List α) (k i : ℕ), i < k → (l.take k).getD i d = l.getD i d
  | [], _, _, _ => by simp
  | _ :: _, _ + 1, 0, _ => rfl
  | _ :: l, k + 1, i + 1, h => getD_take_lt d l k i (by omega)

theorem getD_drop {α : Type} (d : α) :
    ∀ (l : List α) (k i : ℕ), (l.drop k).getD i d = l.getD (k + i) d
  | [], k, i => by simp
  | l, 0, i => by rw [Nat.zero_add]; rfl
  | _ :: l, k + 1, i => by
      show (l.drop k).getD i d = _
      rw [getD_drop d l k i]
      have h : k + 1 + i = (k + i) + 1 := by omega
      rw [h]
      rfl

theorem getD_append_lt {α : Type} (d : α) :
    ∀ (l₁ l₂ : List α) (i : ℕ), i < l₁.length → (l₁ ++ l₂).getD i d = l₁.getD i d
  | _ :: _, _, 0, _ => rfl
  | _ :: l₁, l₂, i + 1, h => getD_append_lt d l₁ l₂ i (by simpa using h)

theorem getD_append_ge {α : Type} (d : α) :
    ∀ (l₁ l₂ : List α) (i : ℕ), (l₁ ++ l₂).getD (l₁.length + i) d = l₂.getD i d
  | [], l₂, i => by rw [List.nil_append, List.length_nil, Nat.zero_add]
  | a :: l₁, l₂, i => by
      have h : (a :: l₁).length + i = (l₁.length + i) + 1 := by
        rw [List.length_cons]; omega
      rw [h, List.cons_append]
      show (l₁ ++ l₂).getD (l₁.length + i) d = _
      exact getD_append_ge d l₁ l₂ i

theorem getD_range_lt : ∀ (n i : ℕ), i < n → (List.range n).getD i 0 = i := by
  intro n
  induction n with
  | zero => intro i hi; omega
  | succ m ih =>
      intro i hi
      rw [List.range_succ]
      rcases Nat.lt_or_ge i m with h | h
      · rw [getD_append_lt 0 _ _ i (by simpa using h)]
        exact ih i h
      · have him : i = m := by omega
        subst him
        have hl : (List.range i).length = i := by simp
        calc (List.range i ++ [i]).getD i 0
            = (List.range i ++ [i]).getD ((List.range i).length + 0) 0 := by
              rw [hl, Nat.add_zero]
          _ = ([i] : List ℕ).getD 0 0 := getD_append_ge 0 _ _ 0
          _ = i := rfl

theorem lookup_map {α β γ : Type} [BEq α] [LawfulBEq α] (f : α → β → γ) :
    ∀ (l : List (α × β)) (k : α),
      (l.map (fun kc => (kc.1, f kc.1 kc.2))).lookup k = (l.lookup k).map (fun v => f k v)
  | [], _ => rfl
  | (a, b) :: t, k => by
      by_cases h : (k == a) = true
      · have hk : k = a := eq_of_beq h
        subst hk
        simp [List.lookup, h]
      · have h' : (k == a) = false := by simpa using h
        simp [List.lookup, h', lookup_map f t k]

/- ------------------------------------------------------------------ -/
/- C2: the MR residual function                                        -/
/- ------------------------------------------------------------------ -/

/-- Helper for C2: the residual vector written as an explicit append of the
two mapped ranges (the let-bindings of multilateralResistances unfolded). -/
theorem multilateralResistances_eq (x : List ℚ) (p : MRParams) :
    multilateralResistances x p =
      ((List.range (p.numberOfCountries - 1)).map (fun j =>
        1 - ((x.take (p.numberOfCountries - 1)).map (fun v => v * p.imrRescale)).getD j 0 *
          ∑ i in Finset.range p.numberOfCountries, p.costOutShr i j *
            ((x.drop (p.numberOfCountries - 1)).map (fun v => v * p.omrRescale)).getD i 0)) ++
      ((List.range p.numberOfCountries).map (fun i =>
        1 - ((x.drop (p.numberOfCountries - 1)).map (fun v => v * p.omrRescale)).getD i 0 *
          ∑ j in Finset.range p.numberOfCountries, p.costExpShr i j *
            (((x.take (p.numberOfCountries - 1)).map (fun v => v * p.imrRescale)) ++ [1]).getD j 0)) :=
  rfl

/-- C2: the multilateral-resistance residual function, on an unknowns
vector of length 2N-1 (first N-1 slots rescaled IMR for the non-excluded
importers of the sorted order, remaining N slots rescaled OMR), returns a
residual vector of length 2N-1 whose importer entries are
1 - IMR_j * sum_i cost_out_shr[i,j] * OMR_i and whose exporter entries are
1 - OMR_i * sum_j cost_exp_shr[i,j] * IMR_j, with IMR = 1 substituted for
the excluded (reference-slot) importer, i.e. the last slot of the sorted
order.  The initial guess used by the caller is the all-ones vector of
length 2N-1. -/
theorem c2_mr_residual_function (p : MRParams) (x : List ℚ)
    (hn : 1 ≤ p.numberOfCountries)
    (hx : x.length = 2 * p.numberOfCountries - 1) :
    ((mrInitialValues p.numberOfCountries).length = 2 * p.numberOfCountries - 1 ∧
      ∀ v ∈ mrInitialValues p.numberOfCountries, v = 1) ∧
    (multilateralResistances x p).length = 2 * p.numberOfCountries - 1 ∧
    (∀ j, j < p.numberOfCountries - 1 →
      (multilateralResistances x p).getD j 0 =
        1 - (x.getD j 0 * p.imrRescale) *
          ∑ i in Finset.range p.numberOfCountries,
            p.costOutShr i j * (x.getD (p.numberOfCountries - 1 + i) 0 * p.omrRescale)) ∧
    (∀ i, i < p.numberOfCountries →
      (multilateralResistances x p).getD (p.numberOfCountries - 1 + i) 0 =
        1 - (x.getD (p.numberOfCountries - 1 + i) 0 * p.omrRescale) *
          ∑ j in Finset.range p.numberOfCountries,
            p.costExpShr i j *
              (if j < p.numberOfCountries - 1 then x.getD j 0 * p.imrRescale else 1)) := by
  have hTakeLen : (x.take (p.numberOfCountries - 1)).length = p.numberOfCountries - 1 := by
    rw [List.length_take, hx]; omega
  have hDropLen : (x.drop (p.numberOfCountries - 1)).length = p.numberOfCountries := by
    rw [List.length_drop, hx]; omega
  have hMapTakeLen :
      ((x.take (p.numberOfCountries - 1)).map (fun v => v * p.imrRescale)).length
        = p.numberOfCountries - 1 := by
    rw [List.length_map, hTakeLen]
  have hMapDropLen :
      ((x.drop (p.numberOfCountries - 1)).map (fun v => v * p.omrRescale)).length
        = p.numberOfCountries := by
    rw [List.length_map, hDropLen]
  have hImrEntry : ∀ j, j < p.numberOfCountries - 1 →
      ((x.take (p.numberOfCountries - 1)).map (fun v => v * p.imrRescale)).getD j 0
        = x.getD j 0 * p.imrRescale := by
    intro j hj
    rw [getD_map_lt (fun v => v * p.imrRescale) 0 0 _ j (by rw [hTakeLen]; exact hj)]
    rw [getD_take_lt 0 x _ j hj]
  have hOmrEntry : ∀ i, i < p.numberOfCountries →
      ((x.drop (p.numberOfCountries - 1)).map (fun v => v * p.omrRescale)).getD i 0
        = x.getD (p.numberOfCountries - 1 + i) 0 * p.omrRescale := by
    intro i hi
    rw [getD_map_lt (fun v => v * p.omrRescale) 0 0 _ i (by rw [hDropLen]; exact hi)]
    rw [getD_drop 0 x _ i]
  refine ⟨⟨by simp [mrInitialValues], ?_⟩, ?_, ?_, ?_⟩
  · intro v hv
    exact List.eq_of_mem_replicate hv
  · rw [multilateralResistances_eq, List.length_append, List.length_map, List.length_map,
      List.length_range, List.length_range]
    omega
  · intro j hj
    have hsum :
        (∑ i in Finset.range p.numberOfCountries, p.costOutShr i j *
            ((x.drop (p.numberOfCountries - 1)).map (fun v => v * p.omrRescale)).getD i 0)
          = ∑ i in Finset.range p.numberOfCountries,
              p.costOutShr i j * (x.getD (p.numberOfCountries - 1 + i) 0 * p.omrRescale) := by
      refine Finset.sum_congr rfl ?_
      intro i hi
      rw [hOmrEntry i (Finset.mem_range.mp hi)]
    rw [multilateralResistances_eq,
      getD_append_lt 0 _ _ j (by rw [List.length_map, List.length_range]; exact hj),
      getD_map_lt _ 0 0 _ j (by rw [List.length_range]; exact hj),
      getD_range_lt _ j hj, hImrEntry j hj, hsum]
  · intro i hi
    have hIdx : p.numberOfCountries - 1 + i =
        ((List.range (p.numberOfCountries - 1)).map (fun j =>
          1 - ((x.take (p.numberOfCountries - 1)).map (fun v => v * p.imrRescale)).getD j 0 *
            ∑ k in Finset.range p.numberOfCountries, p.costOutShr k j *
              ((x.drop (p.numberOfCountries - 1)).map (fun v => v * p.omrRescale)).getD k 0)).length
          + i := by
      rw [List.length_map, List.length_range]
    have hsum :
        (∑ j in Finset.range p.numberOfCountries, p.costExpShr i j *
            (((x.take (p.numberOfCountries - 1)).map (fun v => v * p.imrRescale)) ++ [1]).getD j 0)
          = ∑ j in Finset.range p.numberOfCountries,
              p.costExpShr i j *
                (if j < p.numberOfCountries - 1 then x.getD j 0 * p.imrRescale else 1) := by
      refine Finset.sum_congr rfl ?_
      intro j hj
      have hjn : j < p.numberOfCountries := Finset.mem_range.mp hj
      by_cases hcase : j < p.numberOfCountries - 1
      · rw [if_pos hcase,
          getD_append_lt 0 _ _ j (by rw [hMapTakeLen]; exact hcase),
          hImrEntry j hcase]
      · rw [if_neg hcase]
        have hIdx2 : j =
            ((x.take (p.numberOfCountries - 1)).map (fun v => v * p.imrRescale)).length + 0 := by
          rw [hMapTakeLen]; omega
        have hone :
            (((x.take (p.numberOfCountries - 1)).map (fun v => v * p.imrRescale)) ++ [1]).getD j 0
              = 1 := by
          rw [hIdx2]
          exact getD_append_ge 0 _ _ 0
        rw [hone]
    rw [multilateralResistances_eq, hIdx, getD_append_ge,
      getD_map_lt _ 0 0 _ i (by rw [List.length_range]; exact hi),
      getD_range_lt _ i hi, hOmrEntry i hi, hsum, List.length_map, List.length_range]

/-- Witness for C2 at a concrete instance: two countries, unit share
matrices, unit rescales, all-ones unknowns vector. -/
theorem c2_mr_residual_function_witness :
    1 ≤ (2 : ℕ) ∧ ([1, 1, 1] : List ℚ).length = 2 * 2 - 1 ∧
      (multilateralResistances [1, 1, 1]
        ⟨2, fun _ _ => 1, fun _ _ => 1, 1, 1⟩).length = 2 * 2 - 1 :=
  ⟨by norm_num, by norm_num,
    (c2_mr_residual_function ⟨2, fun _ _ => 1, fun _ _ => 1, 1, 1⟩ [1, 1, 1]
      (by norm_num) (by norm_num)).2.1⟩

/- ------------------------------------------------------------------ -/
/- C5: rescale invariance                                              -/
/- ------------------------------------------------------------------ -/

/-- C5: rescale invariance.  For positive rescale factors, the MR
residual vector of x under rescales (imr_rescale, omr_rescale) is
pointwise identical to the residual vector of the componentwise-scaled
vector under unit rescales; hence x zeroes the system under the rescales
iff the scaled vector zeroes it without them, and the unpacked IMR/OMR
values agree exactly in the two formulations. -/
theorem c5_rescale_invariance (n : ℕ) (ce co : ℕ → ℕ → ℚ) (ri ro : ℚ) (x : List ℚ)
    (hn : 1 ≤ n) (hx : x.length = 2 * n - 1) (hri : 0 < ri) (hro : 0 < ro) :
    multilateralResistances x ⟨n, ce, co, ri, ro⟩ =
      multilateralResistances (scaleMRVector n ri ro x) ⟨n, ce, co, 1, 1⟩ ∧
    (multilateralResistances x ⟨n, ce, co, ri, ro⟩ = List.replicate (2 * n - 1) 0 ↔
      multilateralResistances (scaleMRVector n ri ro x) ⟨n, ce, co, 1, 1⟩ =
        List.replicate (2 * n - 1) 0) ∧
    packImrs n ri x = packImrs n 1 (scaleMRVector n ri ro x) ∧
    packOmrs n ro x = packOmrs n 1 (scaleMRVector n ri ro x) := by
  have hALen : ((x.take (n - 1)).map (fun v => v * ri)).length = n - 1 := by
    rw [List.length_map, List.length_take, hx]
    omega
  have hTake : (scaleMRVector n ri ro x).take (n - 1) = (x.take (n - 1)).map (fun v => v * ri) := by
    show (((x.take (n - 1)).map (fun v => v * ri)) ++
      ((x.drop (n - 1)).map (fun v => v * ro))).take (n - 1) = _
    exact List.take_left' hALen
  have hDrop : (scaleMRVector n ri ro x).drop (n - 1) = (x.drop (n - 1)).map (fun v => v * ro) := by
    show (((x.take (n - 1)).map (fun v => v * ri)) ++
      ((x.drop (n - 1)).map (fun v => v * ro))).drop (n - 1) = _
    exact List.drop_left' hALen
  have hmapOne : ∀ l : List ℚ, l.map (fun v => v * (1 : ℚ)) = l := by
    intro l
    induction l with
    | nil => rfl
    | cons a t ih => rw [List.map_cons, mul_one, ih]
  have hMain : multilateralResistances x ⟨n, ce, co, ri, ro⟩ =
      multilateralResistances (scaleMRVector n ri ro x) ⟨n, ce, co, 1, 1⟩ := by
    rw [multilateralResistances_eq, multilateralResistances_eq]
    dsimp only
    rw [hTake, hDrop]
    simp only [hmapOne]
  refine ⟨hMain, by rw [hMain], ?_, ?_⟩
  · rw [packImrs, packImrs, hTake]
    simp only [hmapOne]
  · rw [packOmrs, packOmrs, hDrop]
    simp only [hmapOne]

/-- Witness for C5 at a concrete instance: two countries, rescale factors
3 and 5, all-ones unknowns vector. -/
theorem c5_rescale_invariance_witness :
    1 ≤ (2 : ℕ) ∧ ([1, 1, 1] : List ℚ).length = 2 * 2 - 1 ∧ (0 : ℚ) < 3 ∧ (0 : ℚ) < 5 ∧
      packImrs 2 3 [1, 1, 1] = packImrs 2 1 (scaleMRVector 2 3 5 [1, 1, 1]) :=
  ⟨by norm_num, by norm_num, by norm_num, by norm_num,
    (c5_rescale_invariance 2 (fun _ _ => 1) (fun _ _ => 1) 3 5 [1, 1, 1]
      (by norm_num) (by norm_num) (by norm_num) (by norm_num)).2.2.1⟩

/- ------------------------------------------------------------------ -/
/- C3: the full GE residual function                                   -/
/- ------------------------------------------------------------------ -/

theorem getD_replicate_lt {α : Type} (a d : α) :
    ∀ (m i : ℕ), i < m → (List.replicate m a).getD i d = a
  | _ + 1, 0, _ => rfl
  | m + 1, i + 1, h => getD_replicate_lt a d m i (by omega)

/-- Helper for C3: the full-GE residual vector written as an explicit
append of the three mapped ranges (let-bindings unfolded). -/
theorem fullGe_eq (x : List ℚ) (p : GEParams) :
    fullGe x p =
      ((List.range (p.numberOfCountries - 1)).map (fun j =>
        1 - ((x.take (p.numberOfCountries - 1)).map (fun v => v * p.imrRescale)).getD j 0 *
          ∑ i in Finset.range p.numberOfCountries, p.costOutShr i j *
            (((x.drop (p.numberOfCountries - 1)).take p.numberOfCountries).map
              (fun v => v * p.omrRescale)).getD i 0)) ++
      ((List.range p.numberOfCountries).map (fun i =>
        1 - (((x.drop (p.numberOfCountries - 1)).take p.numberOfCountries).map
            (fun v => v * p.omrRescale)).getD i 0 *
          ∑ j in Finset.range p.numberOfCountries, p.costExpShr i j *
            (((x.take (p.numberOfCountries - 1)).map (fun v => v * p.imrRescale)) ++ [1]).getD j 0)) ++
      ((List.range p.numberOfCountries).map (fun i =>
        1 - (p.outputShr.getD i 0 *
            (((x.drop (p.numberOfCountries - 1)).take p.numberOfCountries).map
              (fun v => v * p.omrRescale)).getD i 0) /
          (p.factoryGateParam.getD i 0 *
            ((x.drop (2 * p.numberOfCountries - 1)).getD i 0) ^ ((1 : ℤ) - p.sigma)))) :=
  rfl

/-- C3: the full-GE residual function operates on an unknowns vector of
length 3N-1 (N-1 rescaled IMR, N rescaled OMR, N factory-gate prices);
the initial vector is the conditional-MR solution divided by the rescale
factors with all prices set to 1; the residuals are the two MR families
over the experiment share matrices plus, per exporter i,
1 - (output_share_i * OMR_i) / (beta_i * price_i ^ (1 - sigma)); and the
factory-gate parameter beta stored per country is
baseline_output_share * baseline_omr. -/
theorem c3_full_ge_residual_function (p : GEParams) (x condImr condOmr : List ℚ)
    (hn : 1 ≤ p.numberOfCountries)
    (hx : x.length = 3 * p.numberOfCountries - 1)
    (hci : condImr.length = p.numberOfCountries)
    (hco : condOmr.length = p.numberOfCountries) :
    ((fullGeInitialValues p.numberOfCountries p.imrRescale p.omrRescale condImr condOmr).length
        = 3 * p.numberOfCountries - 1 ∧
      (∀ j, j < p.numberOfCountries - 1 →
        (fullGeInitialValues p.numberOfCountries p.imrRescale p.omrRescale condImr condOmr).getD j 0
          = condImr.getD j 0 / p.imrRescale) ∧
      (∀ i, i < p.numberOfCountries →
        (fullGeInitialValues p.numberOfCountries p.imrRescale p.omrRescale condImr
          condOmr).getD (p.numberOfCountries - 1 + i) 0 = condOmr.getD i 0 / p.omrRescale) ∧
      (∀ i, i < p.numberOfCountries →
        (fullGeInitialValues p.numberOfCountries p.imrRescale p.omrRescale condImr
          condOmr).getD (2 * p.numberOfCountries - 1 + i) 0 = 1)) ∧
    ((fullGe x p).length = 3 * p.numberOfCountries - 1 ∧
      (∀ j, j < p.numberOfCountries - 1 →
        (fullGe x p).getD j 0 =
          1 - (x.getD j 0 * p.imrRescale) *
            ∑ i in Finset.range p.numberOfCountries,
              p.costOutShr i j * (x.getD (p.numberOfCountries - 1 + i) 0 * p.omrRescale)) ∧
      (∀ i, i < p.numberOfCountries →
        (fullGe x p).getD (p.numberOfCountries - 1 + i) 0 =
          1 - (x.getD (p.numberOfCountries - 1 + i) 0 * p.omrRescale) *
            ∑ j in Finset.range p.numberOfCountries,
              p.costExpShr i j *
                (if j < p.numberOfCountries - 1 then x.getD j 0 * p.imrRescale else 1)) ∧
      (∀ i, i < p.numberOfCountries →
        (fullGe x p).getD (2 * p.numberOfCountries - 1 + i) 0 =
          1 - (p.outputShr.getD i 0 * (x.getD (p.numberOfCountries - 1 + i) 0 * p.omrRescale)) /
            (p.factoryGateParam.getD i 0 *
              (x.getD (2 * p.numberOfCountries - 1 + i) 0) ^ ((1 : ℤ) - p.sigma)))) ∧
    (∀ (cs : List (String × Country)) (k : String) (c : Country),
      cs.lookup k = some c →
      (calculateBaselineFactoryGateParams cs).lookup k =
        some { c with
          factoryGatePriceParam :=
            Option.map (fun om => c.baselineOutputShare * om) c.baselineOmr }) := by
  have hTakeLen : (x.take (p.numberOfCountries - 1)).length = p.numberOfCountries - 1 := by
    rw [List.length_take, hx]; omega
  have hDropTakeLen :
      ((x.drop (p.numberOfCountries - 1)).take p.numberOfCountries).length
        = p.numberOfCountries := by
    rw [List.length_take, List.length_drop, hx]; omega
  have hPriceLen : (x.drop (2 * p.numberOfCountries - 1)).length = p.numberOfCountries := by
    rw [List.length_drop, hx]; omega
  have hMapTakeLen :
      ((x.take (p.numberOfCountries - 1)).map (fun v => v * p.imrRescale)).length
        = p.numberOfCountries - 1 := by
    rw [List.length_map, hTakeLen]
  have hMapOmrLen :
      (((x.drop (p.numberOfCountries - 1)).take p.numberOfCountries).map
        (fun v => v * p.omrRescale)).length = p.numberOfCountries := by
    rw [List.length_map, hDropTakeLen]
  have hImrEntry : ∀ j, j < p.numberOfCountries - 1 →
      ((x.take (p.numberOfCountries - 1)).map (fun v => v * p.imrRescale)).getD j 0
        = x.getD j 0 * p.imrRescale := by
    intro j hj
    rw [getD_map_lt (fun v => v * p.imrRescale) 0 0 _ j (by rw [hTakeLen]; exact hj)]
    rw [getD_take_lt 0 x _ j hj]
  have hOmrEntry : ∀ i, i < p.numberOfCountries →
      (((x.drop (p.numberOfCountries - 1)).take p.numberOfCountries).map
        (fun v => v * p.omrRescale)).getD i 0
        = x.getD (p.numberOfCountries - 1 + i) 0 * p.omrRescale := by
    intro i hi
    rw [getD_map_lt (fun v => v * p.omrRescale) 0 0 _ i (by rw [hDropTakeLen]; exact hi)]
    rw [getD_take_lt 0 _ _ i hi, getD_drop 0 x _ i]
  have hPriceEntry : ∀ i,
      (x.drop (2 * p.numberOfCountries - 1)).getD i 0
        = x.getD (2 * p.numberOfCountries - 1 + i) 0 := by
    intro i
    rw [getD_drop 0 x _ i]
  have hImrFullEntry : ∀ i, i < p.numberOfCountries → ∀ j ∈ Finset.range p.numberOfCountries,
      p.costExpShr i j *
        (((x.take (p.numberOfCountries - 1)).map (fun v => v * p.imrRescale)) ++ [1]).getD j 0
      = p.costExpShr i j *
        (if j < p.numberOfCountries - 1 then x.getD j 0 * p.imrRescale else 1) := by
    intro i _ j hj
    have hjn : j < p.numberOfCountries := Finset.mem_range.mp hj
    by_cases hcase : j < p.numberOfCountries - 1
    · rw [if_pos hcase,
        getD_append_lt 0 _ _ j (by rw [hMapTakeLen]; exact hcase),
        hImrEntry j hcase]
    · rw [if_neg hcase]
      have hIdx2 : j =
          ((x.take (p.numberOfCountries - 1)).map (fun v => v * p.imrRescale)).length + 0 := by
        rw [hMapTakeLen]; omega
      have hone :
          (((x.take (p.numberOfCountries - 1)).map (fun v => v * p.imrRescale)) ++ [1]).getD j 0
            = 1 := by
        rw [hIdx2]
        exact getD_append_ge 0 _ _ 0
      rw [hone]
  have hInitImrLen : ((condImr.map (fun v => v / p.imrRescale)).take
      (p.numberOfCountries - 1)).length = p.numberOfCountries - 1 := by
    rw [List.length_take, List.length_map, hci]; omega
  have hInitOmrLen : (condOmr.map (fun v => v / p.omrRescale)).length = p.numberOfCountries := by
    rw [List.length_map, hco]
  refine ⟨⟨?_, ?_, ?_, ?_⟩, ⟨?_, ?_, ?_, ?_⟩, ?_⟩
  · show (((condImr.map (fun v => v / p.imrRescale)).take (p.numberOfCountries - 1)) ++
      (condOmr.map (fun v => v / p.omrRescale)) ++
      List.replicate p.numberOfCountries 1).length = 3 * p.numberOfCountries - 1
    rw [List.length_append, List.length_append, hInitImrLen, hInitOmrLen,
      List.length_replicate]
    omega
  · intro j hj
    show (((condImr.map (fun v => v / p.imrRescale)).take (p.numberOfCountries - 1)) ++
      (condOmr.map (fun v => v / p.omrRescale)) ++
      List.replicate p.numberOfCountries 1).getD j 0 = condImr.getD j 0 / p.imrRescale
    rw [getD_append_lt 0 _ _ j
        (by rw [List.length_append, hInitImrLen, hInitOmrLen]; omega),
      getD_append_lt 0 _ _ j (by rw [hInitImrLen]; exact hj),
      getD_take_lt 0 _ _ j hj,
      getD_map_lt (fun v => v / p.imrRescale) 0 0 _ j (by rw [hci]; omega)]
  · intro i hi
    show (((condImr.map (fun v => v / p.imrRescale)).take (p.numberOfCountries - 1)) ++
      (condOmr.map (fun v => v / p.omrRescale)) ++
      List.replicate p.numberOfCountries 1).getD (p.numberOfCountries - 1 + i) 0
        = condOmr.getD i 0 / p.omrRescale
    have hIdx : p.numberOfCountries - 1 + i =
        ((condImr.map (fun v => v / p.imrRescale)).take (p.numberOfCountries - 1)).length + i := by
      rw [hInitImrLen]
    rw [getD_append_lt 0 _ _ (p.numberOfCountries - 1 + i)
        (by rw [List.length_append, hInitImrLen, hInitOmrLen]; omega),
      hIdx, getD_append_ge,
      getD_map_lt (fun v => v / p.omrRescale) 0 0 _ i (by rw [hco]; exact hi)]
  · intro i hi
    show (((condImr.map (fun v => v / p.imrRescale)).take (p.numberOfCountries - 1)) ++
      (condOmr.map (fun v => v / p.omrRescale)) ++
      List.replicate p.numberOfCountries 1).getD (2 * p.numberOfCountries - 1 + i) 0 = (1 : ℚ)
    have hIdx : 2 * p.numberOfCountries - 1 + i =
        (((condImr.map (fun v => v / p.imrRescale)).take (p.numberOfCountries - 1)) ++
          (condOmr.map (fun v => v / p.omrRescale))).length + i := by
      rw [List.length_append, hInitImrLen, hInitOmrLen]; omega
    rw [hIdx, getD_append_ge, getD_replicate_lt (1 : ℚ) 0 _ i hi]
  · rw [fullGe_eq, List.length_append, List.length_append, List.length_map, List.length_map,
      List.length_map, List.length_range, List.length_range]
    omega
  · intro j hj
    have hsum :
        (∑ i in Finset.range p.numberOfCountries, p.costOutShr i j *
            (((x.drop (p.numberOfCountries - 1)).take p.numberOfCountries).map
              (fun v => v * p.omrRescale)).getD i 0)
          = ∑ i in Finset.range p.numberOfCountries,
              p.costOutShr i j * (x.getD (p.numberOfCountries - 1 + i) 0 * p.omrRescale) := by
      refine Finset.sum_congr rfl ?_
      intro i hi
      rw [hOmrEntry i (Finset.mem_range.mp hi)]
    rw [fullGe_eq,
      getD_append_lt 0 _ _ j
        (by rw [List.length_append, List.length_map, List.length_map, List.length_range,
          List.length_range]; omega),
      getD_append_lt 0 _ _ j (by rw [List.length_map, List.length_range]; exact hj),
      getD_map_lt _ 0 0 _ j (by rw [List.length_range]; exact hj),
      getD_range_lt _ j hj, hImrEntry j hj, hsum]
  · intro i hi
    have hsum :
        (∑ j in Finset.range p.numberOfCountries, p.costExpShr i j *
            (((x.take (p.numberOfCountries - 1)).map (fun v => v * p.imrRescale)) ++ [1]).getD j 0)
          = ∑ j in Finset.range p.numberOfCountries,
              p.costExpShr i j *
                (if j < p.numberOfCountries - 1 then x.getD j 0 * p.imrRescale else 1) :=
      Finset.sum_congr rfl (hImrFullEntry i hi)
    have hIdx : p.numberOfCountries - 1 + i =
        ((List.range (p.numberOfCountries - 1)).map (fun j =>
          1 - ((x.take (p.numberOfCountries - 1)).map (fun v => v * p.imrRescale)).getD j 0 *
            ∑ k in Finset.range p.numberOfCountries, p.costOutShr k j *
              (((x.drop (p.numberOfCountries - 1)).take p.numberOfCountries).map
                (fun v => v * p.omrRescale)).getD k 0)).length + i := by
      rw [List.length_map, List.length_range]
    rw [fullGe_eq,
      getD_append_lt 0 _ _ (p.numberOfCountries - 1 + i)
        (by rw [List.length_append, List.length_map, List.length_map, List.length_range,
          List.length_range]; omega),
      hIdx, getD_append_ge,
      getD_map_lt _ 0 0 _ i (by rw [List.length_range]; exact hi),
      getD_range_lt _ i hi, hOmrEntry i hi, hsum, List.length_map, List.length_range]
  · intro i hi
    have hIdx : 2 * p.numberOfCountries - 1 + i =
        (((List.range (p.numberOfCountries - 1)).map (fun j =>
          1 - ((x.take (p.numberOfCountries - 1)).map (fun v => v * p.imrRescale)).getD j 0 *
            ∑ k in Finset.range p.numberOfCountries, p.costOutShr k j *
              (((x.drop (p.numberOfCountries - 1)).take p.numberOfCountries).map
                (fun v => v * p.omrRescale)).getD k 0)) ++
        ((List.range p.numberOfCountries).map (fun k =>
          1 - (((x.drop (p.numberOfCountries - 1)).take p.numberOfCountries).map
              (fun v => v * p.omrRescale)).getD k 0 *
            ∑ j in Finset.range p.numberOfCountries, p.costExpShr k j *
              (((x.take (p.numberOfCountries - 1)).map (fun v => v * p.imrRescale)) ++
                [1]).getD j 0))).length + i := by
      rw [List.length_append, List.length_map, List.length_map, List.length_range,
        List.length_range]
      omega
    rw [fullGe_eq, hIdx, getD_append_ge,
      getD_map_lt _ 0 0 _ i (by rw [List.length_range]; exact hi),
      getD_range_lt _ i hi, hOmrEntry i hi, hPriceEntry i, List.length_append,
      List.length_map, List.length_map, List.length_range, List.length_range]
    have harith : p.numberOfCountries - 1 + p.numberOfCountries + i
        = 2 * p.numberOfCountries - 1 + i := by omega
    rw [harith]
  · intro cs k c hk
    have h := lookup_map (fun (_ : String) (c : Country) =>
      { c with factoryGatePriceParam :=
        Option.map (fun om => c.baselineOutputShare * om) c.baselineOmr }) cs k
    rw [hk] at h
    exact h

/-- Witness for C3 at a concrete instance: two countries, sigma 5, unit
matrices and rescales. -/
theorem c3_full_ge_residual_function_witness :
    1 ≤ (2 : ℕ) ∧ ([1, 1, 1, 1, 1] : List ℚ).length = 3 * 2 - 1 ∧
      (fullGeInitialValues 2 1 1 [1, 1] [1, 1]).length = 3 * 2 - 1 :=
  ⟨by norm_num, by norm_num,
    (c3_full_ge_residual_function
      ⟨2, 5, fun _ _ => 1, fun _ _ => 1, [1/2, 1/2], [1, 1], 1, 1⟩
      [1, 1, 1, 1, 1] [1, 1] [1, 1]
      (by norm_num) (by norm_num) (by norm_num) (by norm_num)).1.1⟩

/- ------------------------------------------------------------------ -/
/- C1: which country receives the normalized IMR value 1               -/
/- ------------------------------------------------------------------ -/

/-- C1 (code bug): the claim says the stored IMR of the designated
reference importer equals 1 in every solved phase regardless of its
position in the sorted country order, and the source documents the same
intent (lines 22 and 161-163, and the comment at line 901).  The pack-up
step of _calculate_multilateral_resistance instead appends the value 1 at
the end of the sorted country list, so the sorted-LAST country receives
IMR 1.  With countries A and B, reference importer A, unit rescales and
solver output [2, 3, 4], the model stores baseline IMR 2 for the
reference country A and baseline IMR 1 for the non-reference country B,
contradicting the claim and the documented intent. -/
theorem c1_reference_imr_not_normalized :
    (((calculateMultilateralResistance "baseline"
        [("A", ({} : Country)), ("B", ({} : Country))] 1 1
        ⟨[2, 3, 4], true, "The solution converged."⟩).countrySet.lookup "A").map
          (fun c => c.baselineImr) = some (some 2)) ∧
    (((calculateMultilateralResistance "baseline"
        [("A", ({} : Country)), ("B", ({} : Country))] 1 1
        ⟨[2, 3, 4], true, "The solution converged."⟩).countrySet.lookup "B").map
          (fun c => c.baselineImr) = some (some 1)) ∧
    (some (some (2 : ℚ)) : Option (Option ℚ)) ≠ some (some 1) := by
  have hsorted : sortedKeys [("A", ({} : Country)), ("B", ({} : Country))] = ["A", "B"] := by
    decide
  have hba : (("B" == "A") : Bool) = false := by decide
  have haa : (("A" == "A") : Bool) = true := by decide
  have hbb : (("B" == "B") : Bool) = true := by decide
  have hab : (("A" == "B") : Bool) = false := by decide
  refine ⟨?_, ?_, by norm_num⟩
  · norm_num [calculateMultilateralResistance, hsorted, packImrs, packOmrs, List.lookup,
      hba, haa, hbb, hab]
  · norm_num [calculateMultilateralResistance, hsorted, packImrs, packOmrs, List.lookup,
      hba, haa, hbb, hab]

/- ------------------------------------------------------------------ -/
/- C4: GEPPML versus iterative baseline normalization                  -/
/- ------------------------------------------------------------------ -/

theorem zip_append_len {α β : Type} :
    ∀ (l₁ : List α) (l₂ : List β) (r₁ : List α) (r₂ : List β), l₁.length = l₂.length →
      (l₁ ++ r₁).zip (l₂ ++ r₂) = l₁.zip l₂ ++ r₁.zip r₂
  | [], [], _, _, _ => rfl
  | a :: t₁, b :: t₂, r₁, r₂, h => by
      simp only [List.cons_append, List.zip_cons_cons]
      rw [zip_append_len t₁ t₂ r₁ r₂ (by simpa using h)]
  | [], _ :: _, _, _, h => by simp at h
  | _ :: _, [], _, _, h => by simp at h

theorem lookup_zip_single :
    ∀ (pre : List String) (vpre : List ℚ) (k : String) (v : ℚ), k ∉ pre →
      ((pre.zip vpre) ++ [(k, v)]).lookup k = some v := by
  intro pre
  induction pre with
  | nil =>
      intro vpre k v _
      cases vpre <;> simp [List.lookup]
  | cons a t ih =>
      intro vpre k v hmem
      cases vpre with
      | nil => simp [List.lookup]
      | cons b bt =>
          have hka : (k == a) = false := by
            have hne : k ≠ a := fun h => hmem (h ▸ List.mem_cons_self a t)
            simpa using hne
          simp only [List.zip_cons_cons, List.cons_append, List.lookup, hka]
          exact ih bt k v (fun h => hmem (List.mem_cons_of_mem a h))

/-- Lookup in the country set produced by the baseline store step of the
MR solve: the per-country update commutes with association-list lookup. -/
theorem storeBaseline_lookup (countryList : List String) (imrs omrs : List ℚ) :
    ∀ (l : List (String × Country)) (k : String),
      (l.map (fun kc =>
        (kc.1, { kc.2 with baselineImr := (countryList.zip imrs).lookup kc.1,
                           baselineOmr := (countryList.zip omrs).lookup kc.1 }))).lookup k
        = (l.lookup k).map (fun c =>
            { c with baselineImr := (countryList.zip imrs).lookup k,
                     baselineOmr := (countryList.zip omrs).lookup k })
  | [], _ => rfl
  | (a, b) :: t, k => by
      by_cases h : (k == a) = true
      · have hk : k = a := eq_of_beq h
        subst hk
        simp [List.lookup, h]
      · have h' : (k == a) = false := by simpa using h
        simp [List.lookup, h', storeBaseline_lookup countryList imrs omrs t k]

/-- Counterexample for C4: with countries A and B, reference importer A,
all fixed effects estimated (reference exporter effect present, importer
effect absent as required), unit data and mexp constant 1, the GEPPML
closed form stores baseline IMR exactly 1 for the reference country A,
while the iterative pack-up with solver output [2, 3, 4] stores baseline
IMR 2 for A: the two paths do not satisfy the same reference-country
normalization when the reference importer is not sorted last. -/
theorem c4_normalization_differs :
    (((calculateGeppmlBaseline (fun _ => 1) "A"
        [("A", { baselineOutput := 1, baselineExpenditure := 1,
                 baselineExporterFe := some 0 }),
         ("B", { baselineOutput := 1, baselineExpenditure := 1,
                 baselineImporterFe := some 0, baselineExporterFe := some 0 })]).2.toOption.bind
        (fun cs => (cs.lookup "A").map (fun c => c.baselineImr)))
      = some (some 1)) ∧
    (((calculateMultilateralResistance "baseline"
        [("A", { baselineOutput := 1, baselineExpenditure := 1,
                 baselineExporterFe := some 0 }),
         ("B", { baselineOutput := 1, baselineExpenditure := 1,
                 baselineImporterFe := some 0, baselineExporterFe := some 0 })] 1 1
        ⟨[2, 3, 4], true, "The solution converged."⟩).countrySet.lookup "A").map
          (fun c => c.baselineImr) = some (some 2)) ∧
    (some (some (1 : ℚ)) : Option (Option ℚ)) ≠ some (some 2) := by
  have hsorted : sortedKeys
      [("A", ({ baselineOutput := 1, baselineExpenditure := 1,
                baselineExporterFe := some 0 } : Country)),
       ("B", ({ baselineOutput := 1, baselineExpenditure := 1,
                baselineImporterFe := some 0, baselineExporterFe := some 0 } : Country))]
      = ["A", "B"] := by
    decide
  have hba : (("B" == "A") : Bool) = false := by decide
  have haa : (("A" == "A") : Bool) = true := by decide
  have hbb : (("B" == "B") : Bool) = true := by decide
  have hab : (("A" == "B") : Bool) = false := by decide
  have hBAeq : (("B" : String) = "A") = False := by
    apply eq_false
    decide
  refine ⟨?_, ?_, by norm_num⟩
  · norm_num [calculateGeppmlBaseline, geppmlLoop, geppmlCountry, geppmlOMR, geppmlIMR,
      List.lookup, hba, haa, hbb, hab, hBAeq, Except.toOption, Except.map]
  · norm_num [calculateMultilateralResistance, hsorted, packImrs, packOmrs, List.lookup,
      hba, haa, hbb, hab]

/-- C4 (amended): both baseline derivations store reciprocal MR terms,
and each pins one stored IMR to exactly 1 -- the GEPPML closed form pins
the designated reference importer (storing 1 / 1), while the iterative
pack-up pins the country sorted last.  The two normalizations therefore
agree exactly when the reference importer is the last country of the
sorted order: under that hypothesis the reference importer receives a
stored baseline IMR of exactly 1 on both paths. -/
theorem c4_reference_normalization_amended
    (mexp : ℚ → ℚ) (refImp : String) (ER : ℚ) (c : Country) (efe : ℚ)
    (cs : List (String × Country)) (c₀ : Country) (pre : List String)
    (rimr romr : ℚ) (solved : SolverResult)
    (hfe : c.baselineExporterFe = some efe)
    (hsplit : sortedKeys cs = pre ++ [refImp])
    (hpre : refImp ∉ pre)
    (hlenx : solved.x.length = 2 * (sortedKeys cs).length - 1)
    (hc₀ : cs.lookup refImp = some c₀) :
    (geppmlCountry mexp refImp ER (refImp, c)).2 =
      Except.ok (refImp, { c with
        baselineImr := some 1,
        baselineOmr := some (1 / geppmlOMR mexp c.baselineOutput ER efe) }) ∧
    ((calculateMultilateralResistance "baseline" cs rimr romr solved).countrySet.lookup
        refImp).map (fun c' => c'.baselineImr) = some (some 1) := by
  constructor
  · have h1 : (1 : ℚ) / 1 = 1 := by norm_num
    simp [geppmlCountry, hfe, h1]
  · have hn1 : (sortedKeys cs).length = pre.length + 1 := by
      rw [hsplit, List.length_append]
      rfl
    have himrsLen :
        ((solved.x.take ((pre ++ [refImp]).length - 1)).map (fun v => v * rimr)).length
          = pre.length := by
      rw [List.length_map, List.length_take, hlenx, hn1, List.length_append,
        List.length_singleton]
      omega
    have hzip : ((sortedKeys cs).zip
        (packImrs (sortedKeys cs).length rimr solved.x)).lookup refImp = some 1 := by
      show ((sortedKeys cs).zip
        (((solved.x.take ((sortedKeys cs).length - 1)).map (fun v => v * rimr)) ++
          [1])).lookup refImp = some 1
      rw [hsplit, zip_append_len pre _ [refImp] [1] himrsLen.symm]
      exact lookup_zip_single pre _ refImp 1 hpre
    have hCS : (calculateMultilateralResistance "baseline" cs rimr romr solved).countrySet
        = cs.map (fun kc =>
            (kc.1, { kc.2 with
              baselineImr := ((sortedKeys cs).zip
                (packImrs (sortedKeys cs).length rimr solved.x)).lookup kc.1,
              baselineOmr := ((sortedKeys cs).zip
                (packOmrs (sortedKeys cs).length romr solved.x)).lookup kc.1 })) := by
      simp [calculateMultilateralResistance]
    rw [hCS, storeBaseline_lookup, hc₀, hzip]
    simp

/-- Witness for C4 (amended) at a concrete instance: countries A and B
with reference importer B, which is last in the sorted order. -/
theorem c4_reference_normalization_amended_witness :
    (geppmlCountry (fun _ => 1) "B" 1
        ("B", { baselineOutput := 1, baselineExpenditure := 1,
                baselineExporterFe := some 0 })).2 =
      Except.ok ("B", { ({ baselineOutput := 1,
                           baselineExpenditure := 1,
                           baselineExporterFe := some 0 } : Country) with
        baselineImr := some 1,
        baselineOmr := some (1 / geppmlOMR (fun _ => 1) 1 1 0) }) ∧
    ((calculateMultilateralResistance "baseline"
        [("A", ({} : Country)),
         ("B", { baselineOutput := 1, baselineExpenditure := 1,
                 baselineExporterFe := some 0 })] 1 1
        ⟨[2, 3, 4], true, "The solution converged."⟩).countrySet.lookup "B").map
      (fun c' => c'.baselineImr) = some (some 1) :=
  c4_reference_normalization_amended (fun _ => 1) "B" 1
    { baselineOutput := 1, baselineExpenditure := 1, baselineExporterFe := some 0 } 0
    [("A", ({} : Country)),
     ("B", { baselineOutput := 1, baselineExpenditure := 1,
             baselineExporterFe := some 0 })]
    { baselineOutput := 1, baselineExpenditure := 1, baselineExporterFe := some 0 }
    ["A"] 1 1 ⟨[2, 3, 4], true, "The solution converged."⟩
    rfl (by decide) (by decide) (by decide) (by decide)

/- ------------------------------------------------------------------ -/
/- C6: lifecycle sequencing                                            -/
/- ------------------------------------------------------------------ -/

/-- C6: calling define_experiment before build_baseline has completed, or
simulate before define_experiment has completed, raises a sequencing
ValueError; in both cases the guard precedes every assignment, so the
state in the returned triple is exactly the input state -- no experiment
or simulation state is modified. -/
theorem c6_lifecycle_sequencing (mexp : ℚ → ℚ) (s : GEModelState)
    (d : List TradeRow) (cond full : SolverResult) :
    (s.baselineBuilt = false →
      defineExperiment mexp s d =
        (s, [], some (PyError.valueError
          "Baseline must be built first (i.e. ge_model.build_baseline() method"))) ∧
    (s.experimentDefined = false →
      ∃ msg, simulate s cond full = (s, [], some (PyError.valueError msg))) := by
  constructor
  · intro h
    simp [defineExperiment, h]
  · intro h
    cases hb : s.baselineBuilt with
    | false =>
        exact ⟨"Baseline must be built first (i.e. OneSectorGE.build_baseline() method",
          by simp [simulate, hb]⟩
    | true =>
        exact ⟨"Expiriment must be defined first (i.e. OneSectorGE.define_expiriment() method",
          by simp [simulate, hb, h]⟩

/-- Witness for C6 at a concrete freshly-initialized state. -/
theorem c6_lifecycle_sequencing_witness :
    (initialState [] {} "A" none [] [] []).baselineBuilt = false ∧
    defineExperiment (fun v => v) (initialState [] {} "A" none [] [] []) [] =
      (initialState [] {} "A" none [] [] [], [], some (PyError.valueError
        "Baseline must be built first (i.e. ge_model.build_baseline() method")) :=
  ⟨rfl,
    (c6_lifecycle_sequencing (fun v => v) (initialState [] {} "A" none [] [] []) []
      ⟨[], true, ""⟩ ⟨[], true, ""⟩).1 rfl⟩

/- ------------------------------------------------------------------ -/
/- C7: non-convergence is never fatal                                  -/
/- ------------------------------------------------------------------ -/

/-- C7: when the root finder does not report the convergence message, the
MR store step and the full-GE store step each emit exactly one warning
carrying the solver message, store the full solver result under the
corresponding diagnostics key (version_MRs / full_GE), and still unpack
and store the solution vector into the country objects -- the stored
country set is identical to the one a converged run with the same vector
would store.  Both functions are total: no exception is raised. -/
theorem c7_nonconvergence_nonfatal (version : String) (cs : List (String × Country))
    (rimr romr : ℚ) (solved : SolverResult)
    (hmsg : solved.message ≠ convergedMessage) :
    ((calculateMultilateralResistance version cs rimr romr solved).warnings
        = [solved.message] ∧
      (calculateMultilateralResistance version cs rimr romr solved).diagKey
        = version ++ "_MRs" ∧
      (calculateMultilateralResistance version cs rimr romr solved).diag = solved ∧
      (calculateMultilateralResistance version cs rimr romr solved).countrySet =
        (calculateMultilateralResistance version cs rimr romr
          { solved with message := convergedMessage }).countrySet) ∧
    ((calculateFullGe cs rimr romr solved).warnings = [solved.message] ∧
      (calculateFullGe cs rimr romr solved).diagKey = "full_GE" ∧
      (calculateFullGe cs rimr romr solved).diag = solved ∧
      (calculateFullGe cs rimr romr solved).countrySet =
        (calculateFullGe cs rimr romr
          { solved with message := convergedMessage }).countrySet) := by
  refine ⟨⟨?_, rfl, rfl, rfl⟩, ?_, rfl, rfl, rfl⟩
  · simp [calculateMultilateralResistance, hmsg]
  · simp [calculateFullGe, hmsg]

/-- Witness for C7 at a concrete non-converged solver result. -/
theorem c7_nonconvergence_nonfatal_witness :
    ("The iteration is not making good progress." : String) ≠ convergedMessage ∧
    (calculateMultilateralResistance "baseline" [("A", ({} : Country))] 1 1
      ⟨[1], false, "The iteration is not making good progress."⟩).warnings
        = ["The iteration is not making good progress."] :=
  ⟨by decide,
    (c7_nonconvergence_nonfatal "baseline" [("A", ({} : Country))] 1 1
      ⟨[1], false, "The iteration is not making good progress."⟩ (by decide)).1.1⟩

/- ------------------------------------------------------------------ -/
/- C9: terms of trade on missing inputs                                -/
/- ------------------------------------------------------------------ -/

/-- Counterexample for C9: on a country whose baseline factory price and
baseline IMR are set but whose experiment factory price and experiment
IMR are still unset, construct_terms_of_trade issues the (non-fatal)
warning once per missing value but then raises an unguarded TypeError at
the division, so the computation does NOT continue as the claim states. -/
theorem c9_missing_input_warns_then_raises :
    constructTermsOfTrade { baselineImr := some 1 } =
      (["Not all necessary values for terms of trade have been calculated.",
        "Not all necessary values for terms of trade have been calculated."],
       Except.error (PyError.typeError "unsupported operand type for /: NoneType")) := by
  simp [constructTermsOfTrade, List.filter]

/-- C9 (amended): construct_terms_of_trade warns once per unset required
input; when all four inputs are set it continues and computes baseline and
experiment terms of trade as factory_price / IMR and the percent change;
when any input is unset, the warning is emitted but the subsequent
unguarded division raises a TypeError instead of continuing. -/
theorem c9_terms_of_trade_amended (c : Country) (bfp bimr efp eimr : ℚ)
    (h1 : c.baselineFactoryPrice = some bfp) (h2 : c.baselineImr = some bimr)
    (h3 : c.experimentFactoryPrice = some efp) (h4 : c.experimentImr = some eimr) :
    (constructTermsOfTrade c = ([], Except.ok { c with
      baselineTermsOfTrade := some (bfp / bimr),
      experimentTermsOfTrade := some (efp / eimr),
      termsOfTradeChange := some (100 * (efp / eimr - bfp / bimr) / (bfp / bimr)) })) ∧
    (∀ c' : Country,
      (c'.baselineFactoryPrice = none ∨ c'.baselineImr = none ∨
        c'.experimentFactoryPrice = none ∨ c'.experimentImr = none) →
      (constructTermsOfTrade c').1 ≠ [] ∧
      (constructTermsOfTrade c').2 =
        Except.error (PyError.typeError "unsupported operand type for /: NoneType")) := by
  constructor
  · simp [constructTermsOfTrade, h1, h2, h3, h4, List.filter]
  · intro c' h'
    rcases hb1 : c'.baselineFactoryPrice with _ | v1 <;>
      rcases hb2 : c'.baselineImr with _ | v2 <;>
        rcases hb3 : c'.experimentFactoryPrice with _ | v3 <;>
          rcases hb4 : c'.experimentImr with _ | v4 <;>
            simp only [hb1, hb2, hb3, hb4, or_self, or_false, or_true, false_or,
              true_or, reduceCtorEq] at h' <;>
            exact ⟨by simp [constructTermsOfTrade, hb1, hb2, hb3, hb4, List.filter],
              by simp [constructTermsOfTrade, hb1, hb2, hb3, hb4]⟩

/-- Witness for C9 (amended) at a concrete fully-populated country. -/
theorem c9_terms_of_trade_amended_witness :
    ({ baselineImr := some 2,
       experimentFactoryPrice := some 3,
       experimentImr := some 4 } : Country).baselineFactoryPrice = some 1 ∧
    (constructTermsOfTrade { baselineImr := some 2,
                             experimentFactoryPrice := some 3,
                             experimentImr := some 4 }).2 =
      Except.ok { ({ baselineImr := some 2,
                     experimentFactoryPrice := some 3,
                     experimentImr := some 4 } : Country) with
        baselineTermsOfTrade := some ((1 : ℚ) / 2),
        experimentTermsOfTrade := some ((3 : ℚ) / 4),
        termsOfTradeChange := some (100 * ((3 : ℚ) / 4 - 1 / 2) / (1 / 2)) } :=
  ⟨rfl, by
    rw [(c9_terms_of_trade_amended
      { baselineImr := some 2, experimentFactoryPrice := some 3, experimentImr := some 4 }
      1 2 3 4 rfl rfl rfl rfl).1]⟩

/- ------------------------------------------------------------------ -/
/- C10: result queries before simulate are unguarded                   -/
/- ------------------------------------------------------------------ -/

/-- C10: trade_share and export_results perform no lifecycle sequencing
check.  After initialization the result fields they read are the unset
sentinel, and build_baseline and define_experiment leave them unset; the
two queries then fail with an unguarded AttributeError (attribute access
on None) respectively TypeError (concatenating None tables), never with
the sequencing ValueError used by define_experiment and simulate. -/
theorem c10_result_queries_unguarded :
    (∀ (cs : List (String × Country)) (econ : Economy) (refImp : String)
        (app : Option String) (bd : List FlowRow) (cc : List ℚ) (btc : List CostRow),
      (initialState cs econ refImp app bd cc btc).bilateralTradeResults = none ∧
      (initialState cs econ refImp app bd cc btc).countryResults = none ∧
      (initialState cs econ refImp app bd cc btc).factoryGatePrices = none ∧
      (initialState cs econ refImp app bd cc btc).aggregateTradeResults = none ∧
      (initialState cs econ refImp app bd cc btc).outputsExpenditures = none ∧
      (initialState cs econ refImp app bd cc btc).countryMrTerms = none) ∧
    (∀ (mexp : ℚ → ℚ) (s : GEModelState) (r1 r2 : ℚ) (solved : SolverResult),
      ((buildBaseline mexp s r1 r2 solved).1).bilateralTradeResults
          = s.bilateralTradeResults ∧
      ((buildBaseline mexp s r1 r2 solved).1).countryResults = s.countryResults) ∧
    (∀ (mexp : ℚ → ℚ) (s : GEModelState) (d : List TradeRow),
      ((defineExperiment mexp s d).1).bilateralTradeResults = s.bilateralTradeResults ∧
      ((defineExperiment mexp s d).1).countryResults = s.countryResults) ∧
    (∀ (s : GEModelState) (imps exps : List String), s.bilateralTradeResults = none →
      tradeShare s imps exps =
        Except.error (PyError.attributeError "NoneType object has no attribute loc") ∧
      ∀ m, tradeShare s imps exps ≠ Except.error (PyError.valueError m)) ∧
    (∀ (s : GEModelState), s.countryResults = none →
      exportResults s =
        Except.error (PyError.typeError "cannot concatenate object of type NoneType") ∧
      ∀ m, exportResults s ≠ Except.error (PyError.valueError m)) := by
  refine ⟨?_, ?_, ?_, ?_, ?_⟩
  · intro cs econ refImp app bd cc btc
    exact ⟨rfl, rfl, rfl, rfl, rfl, rfl⟩
  · intro mexp s r1 r2 solved
    by_cases happ : s.approach = some "GEPPML"
    · rcases hg : calculateGeppmlBaseline mexp s.referenceImporter s.countrySet with ⟨w, r⟩
      cases r with
      | error e => constructor <;> simp [buildBaseline, happ, hg]
      | ok cs' => constructor <;> simp [buildBaseline, happ, hg]
    · constructor <;> simp [buildBaseline, happ]
  · intro mexp s d
    cases hb : s.baselineBuilt <;> constructor <;> simp [defineExperiment, hb]
  · intro s imps exps h
    constructor
    · simp [tradeShare, h]
    · intro m
      simp [tradeShare, h]
  · intro s h
    constructor
    · simp [exportResults, h]
    · intro m
      simp [exportResults, h]

/-- Witness for C10 at a concrete freshly-initialized state. -/
theorem c10_result_queries_unguarded_witness :
    (initialState [] {} "A" none [] [] []).bilateralTradeResults = none ∧
    tradeShare (initialState [] {} "A" none [] [] []) [] [] =
      Except.error (PyError.attributeError "NoneType object has no attribute loc") :=
  ⟨rfl,
    (c10_result_queries_unguarded.2.2.2.1 (initialState [] {} "A" none [] [] [])
      [] [] rfl).1⟩

/- ------------------------------------------------------------------ -/
/- C8: bilateral and aggregate trade results                           -/
/- ------------------------------------------------------------------ -/

theorem find?_map_keys (mk : String → AggRow) (hmk : ∀ k, (mk k).country = k) :
    ∀ (keys : List String) (c : String) (row : AggRow),
      (keys.map mk).find? (fun a => a.country == c) = some row → row = mk c := by
  intro keys
  induction keys with
  | nil => intro c row h; simp [List.find?] at h
  | cons k t ih =>
      intro c row h
      by_cases hk : ((mk k).country == c) = true
      · have hkc : k = c := by
          have h2 : (mk k).country = c := eq_of_beq hk
          rw [hmk k] at h2
          exact h2
        rw [List.map_cons] at h
        simp only [List.find?, hk, Option.some.injEq] at h
        rw [← h, hkc]
      · have hk' : ((mk k).country == c) = false := by simpa using hk
        rw [List.map_cons] at h
        simp only [List.find?, hk'] at h
        exact ih c row h

/-- Characterization of a row found in the grouped table: it carries the
filter-and-sum aggregates of its country key. -/
theorem lookupAgg_aggregateBy (key : BilatRow → String) (bilat : List BilatRow)
    (c : String) (row : AggRow)
    (h : lookupAgg (aggregateBy key bilat) c = some row) :
    row = { country := c,
            baseline := ((bilat.filter (fun r => key r == c)).map
              (fun r => r.baselineModeledTrade)).sum,
            experiment := ((bilat.filter (fun r => key r == c)).map
              (fun r => r.experimentTrade)).sum,
            percentChange := 100 * (((bilat.filter (fun r => key r == c)).map
                (fun r => r.experimentTrade)).sum -
              ((bilat.filter (fun r => key r == c)).map
                (fun r => r.baselineModeledTrade)).sum) /
              ((bilat.filter (fun r => key r == c)).map
                (fun r => r.baselineModeledTrade)).sum } :=
  find?_map_keys _ (fun _ => rfl) _ c row h

theorem filter_filter_comm {α : Type} (p q : α → Bool) :
    ∀ l : List α, (l.filter p).filter q = l.filter (fun a => q a && p a) := by
  intro l
  induction l with
  | nil => rfl
  | cons a t ih =>
      cases hp : p a <;> cases hq : q a <;>
        simp [List.filter_cons, hp, hq, ih]

/-- C8: per bilateral pair present in the data, modeled trade equals
trade_cost times gravity, with
gravity = (importer_expenditure * exporter_output_share) /
(importer_IMR * exporter_OMR), computed separately from baseline and
experiment state; the aggregate exports of a country are the sum of its
bilateral modeled exports over all importers including itself, and the
foreign exports are the same sum restricted to pairs with
importer distinct from exporter (the source filters the self-pairs before
grouping); imports are symmetric. -/
theorem c8_bilateral_and_aggregate_trade :
    (∀ (cs : List (String × Country)) (bCosts eCosts : List CostRow) (r : FlowRow)
        (imp ex : Country) (imr omr expend outShr bimr bomr bcost ecost : ℚ),
      cs.lookup r.importer = some imp →
      cs.lookup r.exporter = some ex →
      imp.experimentImr = some imr →
      ex.experimentOmr = some omr →
      imp.experimentExpenditure = some expend →
      ex.experimentOutputShare = some outShr →
      imp.baselineImr = some bimr →
      ex.baselineOmr = some bomr →
      costLookup bCosts r.importer r.exporter = some bcost →
      costLookup eCosts r.importer r.exporter = some ecost →
      bilatRow cs bCosts eCosts r = some
        { exporter := r.exporter, importer := r.importer,
          baselineModeledTrade :=
            bcost * ((imp.baselineExpenditure * ex.baselineOutputShare) / (bimr * bomr)),
          experimentTrade := ecost * ((expend * outShr) / (imr * omr)),
          percentChange := 100 * (ecost * ((expend * outShr) / (imr * omr)) -
              bcost * ((imp.baselineExpenditure * ex.baselineOutputShare) / (bimr * bomr))) /
            (bcost * ((imp.baselineExpenditure * ex.baselineOutputShare) / (bimr * bomr))) }) ∧
    (∀ (bilat : List BilatRow) (c : String) (row : AggRow),
      lookupAgg (aggregateBy (fun r => r.exporter) bilat) c = some row →
      row.baseline = ((bilat.filter (fun r => r.exporter == c)).map
          (fun r => r.baselineModeledTrade)).sum ∧
      row.experiment = ((bilat.filter (fun r => r.exporter == c)).map
          (fun r => r.experimentTrade)).sum) ∧
    (∀ (bilat : List BilatRow) (c : String) (row : AggRow),
      lookupAgg (aggregateBy (fun r => r.exporter)
          (bilat.filter (fun r => r.importer != r.exporter))) c = some row →
      row.baseline = ((bilat.filter (fun r =>
          r.exporter == c && r.importer != r.exporter)).map
          (fun r => r.baselineModeledTrade)).sum ∧
      row.experiment = ((bilat.filter (fun r =>
          r.exporter == c && r.importer != r.exporter)).map
          (fun r => r.experimentTrade)).sum) ∧
    (∀ (bilat : List BilatRow) (c : String) (row : AggRow),
      lookupAgg (aggregateBy (fun r => r.importer) bilat) c = some row →
      row.baseline = ((bilat.filter (fun r => r.importer == c)).map
          (fun r => r.baselineModeledTrade)).sum ∧
      row.experiment = ((bilat.filter (fun r => r.importer == c)).map
          (fun r => r.experimentTrade)).sum) ∧
    (∀ (bilat : List BilatRow) (c : String) (row : AggRow),
      lookupAgg (aggregateBy (fun r => r.importer)
          (bilat.filter (fun r => r.importer != r.exporter))) c = some row →
      row.baseline = ((bilat.filter (fun r =>
          r.importer == c && r.importer != r.exporter)).map
          (fun r => r.baselineModeledTrade)).sum ∧
      row.experiment = ((bilat.filter (fun r =>
          r.importer == c && r.importer != r.exporter)).map
          (fun r => r.experimentTrade)).sum) := by
  refine ⟨?_, ?_, ?_, ?_, ?_⟩
  · intro cs bCosts eCosts r imp ex imr omr expend outShr bimr bomr bcost ecost
      h1 h2 h3 h4 h5 h6 h7 h8 h9 h10
    simp [bilatRow, h1, h2, h3, h4, h5, h6, h7, h8, h9, h10]
  · intro bilat c row h
    rw [lookupAgg_aggregateBy _ _ _ _ h]
    exact ⟨rfl, rfl⟩
  · intro bilat c row h
    have h2 := lookupAgg_aggregateBy _ _ _ _ h
    rw [filter_filter_comm (fun r => r.importer != r.exporter)
      (fun r => r.exporter == c) bilat] at h2
    rw [h2]
    exact ⟨rfl, rfl⟩
  · intro bilat c row h
    rw [lookupAgg_aggregateBy _ _ _ _ h]
    exact ⟨rfl, rfl⟩
  · intro bilat c row h
    have h2 := lookupAgg_aggregateBy _ _ _ _ h
    rw [filter_filter_comm (fun r => r.importer != r.exporter)
      (fun r => r.importer == c) bilat] at h2
    rw [h2]
    exact ⟨rfl, rfl⟩

/-- Witness for C8 at a concrete one-country economy with a domestic
trade flow and unit values everywhere. -/
theorem c8_bilateral_and_aggregate_trade_witness :
    bilatRow
      [("A", { baselineExpenditure := 1,
               baselineOutputShare := 1,
               baselineImr := some 1,
               baselineOmr := some 1,
               experimentImr := some 1,
               experimentOmr := some 1,
               experimentExpenditure := some 1,
               experimentOutputShare := some 1 })]
      [⟨"A", "A", "2020", 1⟩] [⟨"A", "A", "2020", 1⟩] ⟨"A", "A", 5⟩ = some
        { exporter := "A", importer := "A",
          baselineModeledTrade := 1 * ((1 * 1) / (1 * 1)),
          experimentTrade := 1 * ((1 * 1) / (1 * 1)),
          percentChange := 100 * (1 * ((1 * 1) / (1 * 1)) - 1 * ((1 * 1) / (1 * 1))) /
            (1 * ((1 * 1) / (1 * 1))) } :=
  c8_bilateral_and_aggregate_trade.1
    [("A", { baselineExpenditure := 1,
             baselineOutputShare := 1,
             baselineImr := some 1,
             baselineOmr := some 1,
             experimentImr := some 1,
             experimentOmr := some 1,
             experimentExpenditure := some 1,
             experimentOutputShare := some 1 })]
    [⟨"A", "A", "2020", 1⟩] [⟨"A", "A", "2020", 1⟩] ⟨"A", "A", 5⟩
    { baselineExpenditure := 1,
      baselineOutputShare := 1,
      baselineImr := some 1,
      baselineOmr := some 1,
      experimentImr := some 1,
      experimentOmr := some 1,
      experimentExpenditure := some 1,
      experimentOutputShare := some 1 }
    { baselineExpenditure := 1,
      baselineOutputShare := 1,
      baselineImr := some 1,
      baselineOmr := some 1,
      experimentImr := some 1,
      experimentOmr := some 1,
      experimentExpenditure := some 1,
      experimentOutputShare := some 1 }
    1 1 1 1 1 1 1 1 rfl rfl rfl rfl rfl rfl rfl rfl rfl rfl
